import Mathlib

/-!
# openroguelike: tile grid, wall refinement, world cursor and creature movement

A shallow embedding of `src/level.c` and `src/creature.c`.

Conventions of the embedding.

* C `int` values are `Int`.  The coordinates handled here are bounded by the grid
  dimensions plus a delta, signed overflow is undefined in C and is not modelled.
* `struct level` holds `tile[MAXROWS][MAXCOLS]`.  The array is a function from
  `(y, x)` to tiles; only the cells with `0 ≤ y < MAXROWS` and `0 ≤ x < MAXCOLS`
  exist in C (`in_grid`).  A statement about every `(y, x)` holds in particular for
  the cells of the grid.
* `MAXROWS` and `MAXCOLS` come from `level.h`, which is not among the sources; they
  are parameters of every definition that uses them.
* A `struct creature *` is an address (`creature_ptr`); the creature objects live in
  a store `creatures` from addresses to `struct creature` values.  `NULL` is `none`.
* A C function that mutates its arguments returns the new values of what it mutates.
-/

namespace OpenRoguelike

/-! ## Data model -/

/-- Modelled from the spec: the tile type enumeration of `level.h` (the header is not
among the sources).  The fifteen variants are the ones the sources use. -/
inductive tile_type
  | T_EMPTY
  | T_WALL
  | T_HLINE
  | T_VLINE
  | T_BTEE
  | T_TTEE
  | T_LTEE
  | T_RTEE
  | T_CROSS
  | T_LLCORNER
  | T_LRCORNER
  | T_ULCORNER
  | T_URCORNER
  | T_UPSTAIR
  | T_DOWNSTAIR
  deriving DecidableEq, Fintype

/-- Modelled from the spec: the level origin enumeration of `level.h`
(`L_NONE` and `L_STATIC` appear in `level.c`, the generated origin only in the spec). -/
inductive level_type
  | L_NONE
  | L_STATIC
  | L_GENERATED
  deriving DecidableEq

/-- Modelled from the spec: the race enumeration of `creature.h`, with its sentinel
`R__MAX` as used by `creature_init`. -/
inductive race
  | R_HUMAN
  | R_GOBLIN
  | R__MAX
  deriving DecidableEq

open tile_type level_type race

/-- Address of a `struct creature`. -/
abbrev creature_ptr := Nat

/-- Modelled from the spec: `struct creature` of `creature.h`, with the fields the
sources read and write. -/
structure creature where
  race : race
  y : Int
  x : Int
  speed : Int
  actionpoints : Int
  deriving DecidableEq

/-- The store of creature objects, by address. -/
abbrev creatures := creature_ptr → creature

/-- Modelled from the spec: `struct tile` of `level.h`: a type and a nullable
back pointer to the occupying creature. -/
structure tile where
  type : tile_type
  creature : Option creature_ptr
  deriving DecidableEq

/-- Modelled from the spec: `struct level` of `level.h`: the origin and the grid
`tile[MAXROWS][MAXCOLS]`, indexed as `tile y x`. -/
structure level where
  type : level_type
  tile : Int → Int → tile

/-- The assignment `l->tile[y][x].type = t`. -/
def level.set_type (l : level) (y x : Int) (t : tile_type) : level :=
  { l with tile := fun y' x' =>
      if y' = y ∧ x' = x then { l.tile y' x' with type := t } else l.tile y' x' }

/-- The assignment `l->tile[y][x].creature = p`. -/
def level.set_creature (l : level) (y x : Int) (p : Option creature_ptr) : level :=
  { l with tile := fun y' x' =>
      if y' = y ∧ x' = x then { l.tile y' x' with creature := p } else l.tile y' x' }

/-- The assignment `c->y = v` on the creature stored at `c`. -/
def creatures.set_y (m : creatures) (c : creature_ptr) (v : Int) : creatures :=
  fun p => if p = c then { m p with y := v } else m p

/-- The assignment `c->x = v` on the creature stored at `c`. -/
def creatures.set_x (m : creatures) (c : creature_ptr) (v : Int) : creatures :=
  fun p => if p = c then { m p with x := v } else m p

/-- The cell `(y, x)` exists in `tile[MAXROWS][MAXCOLS]`. -/
def in_grid (MAXROWS MAXCOLS : Nat) (y x : Int) : Prop :=
  0 ≤ y ∧ y < (MAXROWS : Int) ∧ 0 ≤ x ∧ x < (MAXCOLS : Int)

instance (MAXROWS MAXCOLS : Nat) (y x : Int) : Decidable (in_grid MAXROWS MAXCOLS y x) := by
  unfold in_grid; infer_instance

/-- The cell `(y, x)` is interior: `1 ≤ y ≤ MAXROWS - 2` and `1 ≤ x ≤ MAXCOLS - 2`. -/
def interior (MAXROWS MAXCOLS : Nat) (y x : Int) : Prop :=
  1 ≤ y ∧ y ≤ (MAXROWS : Int) - 2 ∧ 1 ≤ x ∧ x ≤ (MAXCOLS : Int) - 2

instance (MAXROWS MAXCOLS : Nat) (y x : Int) : Decidable (interior MAXROWS MAXCOLS y x) := by
  unfold interior; infer_instance

/-! ## Loops -/

/-- The loop `for (i = start; n iterations; i++) s = body i s`. -/
def loop_from {σ : Type} (body : Int → σ → σ) : Nat → Int → σ → σ
  | 0, _, s => s
  | n + 1, i, s => loop_from body n (i + 1) (body i s)

/-- The loop `for (int i = lo; i < hi; i++) s = body i s`. -/
def for_loop {σ : Type} (lo hi : Int) (body : Int → σ → σ) (s : σ) : σ :=
  loop_from body (hi - lo).toNat lo s

/-- The loop `for (i = start; n iterations; i++) if body i returns then return it`:
the value returned by the first iteration that returns, if any. -/
def search_from {ρ : Type} (body : Int → Option ρ) : Nat → Int → Option ρ
  | 0, _ => none
  | n + 1, i =>
    match body i with
    | some r => some r
    | none => search_from body n (i + 1)

/-- The loop `for (int i = lo; i < hi; i++)` whose body changes nothing unless it
returns: the value of the first iteration that returns, if any. -/
def for_search {ρ : Type} (lo hi : Int) (body : Int → Option ρ) : Option ρ :=
  search_from body (hi - lo).toNat lo

/-! ## level.c: tile predicates -/

/-- The function `tile_is_empty` of `level.c`. -/
def tile_is_empty (t : tile) : Bool :=
  if (T_EMPTY = t.type ∨ T_UPSTAIR = t.type ∨ T_DOWNSTAIR = t.type) ∧ none = t.creature then
    true
  else
    false

/-- The function `tile_is_wall` of `level.c`. -/
def tile_is_wall (t : tile) : Bool :=
  if T_WALL = t.type
      ∨ T_HLINE = t.type
      ∨ T_VLINE = t.type
      ∨ T_BTEE = t.type
      ∨ T_TTEE = t.type
      ∨ T_LTEE = t.type
      ∨ T_RTEE = t.type
      ∨ T_CROSS = t.type
      ∨ T_LLCORNER = t.type
      ∨ T_LRCORNER = t.type
      ∨ T_ULCORNER = t.type
      ∨ T_URCORNER = t.type then
    true
  else
    false

/-- The function `level_init` of `level.c`: origin `L_NONE`, every tile of the grid
empty and unoccupied. -/
def level_init (MAXROWS MAXCOLS : Nat) (l : level) : level :=
  { type := L_NONE
    tile := fun y x =>
      if in_grid MAXROWS MAXCOLS y x then { type := T_EMPTY, creature := none }
      else l.tile y x }

/-! ## level.c: level_refine -/

/-- The computation of `nwall` in the body of `level_refine`: the eight tests on the
snapshot `tmp`, each or-ing its bit into the `uint8_t` accumulator. -/
def refine_nwall (tmp : level) (y x : Int) : Nat :=
  let nwall : Nat := 0
  let nwall := if (tmp.tile (y - 1) (x - 1)).type = T_WALL then (nwall ||| 128) else nwall
  let nwall := if (tmp.tile (y - 1) x).type = T_WALL then (nwall ||| 64) else nwall
  let nwall := if (tmp.tile (y - 1) (x + 1)).type = T_WALL then (nwall ||| 32) else nwall
  let nwall := if (tmp.tile y (x - 1)).type = T_WALL then (nwall ||| 16) else nwall
  let nwall := if (tmp.tile y (x + 1)).type = T_WALL then (nwall ||| 8) else nwall
  let nwall := if (tmp.tile (y + 1) (x - 1)).type = T_WALL then (nwall ||| 4) else nwall
  let nwall := if (tmp.tile (y + 1) x).type = T_WALL then (nwall ||| 2) else nwall
  let nwall := if (tmp.tile (y + 1) (x + 1)).type = T_WALL then (nwall ||| 1) else nwall
  nwall

/-- The chain `if (nwall == 255) ... else if ...` of `level_refine`: the type assigned
to `l->tile[y][x].type`, or `none` when no branch is taken and nothing is assigned. -/
def refine_assign (nwall : Nat) : Option tile_type :=
  if nwall = 255 then some T_WALL
  else if 90 = nwall ∨ 91 = nwall ∨ 94 = nwall then some T_CROSS
  else if (nwall &&& 88) = 88 then some T_BTEE
  else if (nwall &&& 82) = 82 then some T_RTEE
  else if (nwall &&& 74) = 74 then some T_LTEE
  else if (nwall &&& 26) = 26 then some T_TTEE
  else if nwall = 127 ∨ (nwall &&& 80) = 80 then some T_LRCORNER
  else if nwall = 223 ∨ (nwall &&& 72) = 72 then some T_LLCORNER
  else if nwall = 251 ∨ (nwall &&& 18) = 18 then some T_URCORNER
  else if nwall = 254 ∨ (nwall &&& 10) = 10 then some T_ULCORNER
  else if (nwall ||| 66) = nwall ∨ (nwall ||| 64) = nwall ∨ (nwall ||| 2) = nwall then
    some T_VLINE
  else if (nwall ||| 34) = nwall ∨ (nwall ||| 16) = nwall ∨ (nwall ||| 8) = nwall then
    some T_HLINE
  else none

/-- The body of the inner loop of `level_refine` at `(y, x)`: reads the snapshot `tmp`,
writes the level `l`. -/
def level_refine_body (tmp : level) (y x : Int) (l : level) : level :=
  if (tmp.tile y x).type ≠ T_WALL then l
  else
    match refine_assign (refine_nwall tmp y x) with
    | some t => l.set_type y x t
    | none => l

/-- The function `level_refine` of `level.c`: `tmp` is the `memcpy` snapshot, the two
loops run over the interior cells in row-major order. -/
def level_refine (MAXROWS MAXCOLS : Nat) (l : level) : level :=
  let tmp := l
  for_loop 1 ((MAXROWS : Int) - 1) (fun y l =>
    for_loop 1 ((MAXCOLS : Int) - 1) (fun x l => level_refine_body tmp y x l) l) l

/-- The weight of a neighbour in the mask: `w` when its type is exactly `T_WALL`. -/
def wall_bit (t : tile) (w : Nat) : Nat :=
  if t.type = T_WALL then w else 0

/-- The 8-bit neighbour mask as the spec words it: the neighbours in row-major order,
the centre skipped, NW=128, N=64, NE=32, W=16, E=8, SW=4, S=2, SE=1. -/
def neighbour_mask (g : level) (y x : Int) : Nat :=
  wall_bit (g.tile (y - 1) (x - 1)) 128 + wall_bit (g.tile (y - 1) x) 64
    + wall_bit (g.tile (y - 1) (x + 1)) 32 + wall_bit (g.tile y (x - 1)) 16
    + wall_bit (g.tile y (x + 1)) 8 + wall_bit (g.tile (y + 1) (x - 1)) 4
    + wall_bit (g.tile (y + 1) x) 2 + wall_bit (g.tile (y + 1) (x + 1)) 1

/-- The ordered first-match classification table as the spec words it, with plain
`T_WALL` when no rule matches. -/
def classify (m : Nat) : tile_type :=
  if m = 255 then T_WALL
  else if m = 90 ∨ m = 91 ∨ m = 94 then T_CROSS
  else if (m &&& 88) = 88 then T_BTEE
  else if (m &&& 82) = 82 then T_RTEE
  else if (m &&& 74) = 74 then T_LTEE
  else if (m &&& 26) = 26 then T_TTEE
  else if m = 127 ∨ (m &&& 80) = 80 then T_LRCORNER
  else if m = 223 ∨ (m &&& 72) = 72 then T_LLCORNER
  else if m = 251 ∨ (m &&& 18) = 18 then T_URCORNER
  else if m = 254 ∨ (m &&& 10) = 10 then T_ULCORNER
  else if (m ||| 66) = m ∨ (m ||| 64) = m ∨ (m ||| 2) = m then T_VLINE
  else if (m ||| 34) = m ∨ (m ||| 16) = m ∨ (m ||| 8) = m then T_HLINE
  else T_WALL

/-! ## level.c: level_add_stairs -/

/-- The function `level_add_stairs` of `level.c`.  The random source is the list of
the values that the successive calls of `rng_rand_uniform` return (`rng.h` is not among
the sources); one iteration of the `do ... while (1)` loop takes four of them.  The
result is the level after the stamping and the values not yet consumed, or `none` when
the values run out before an iteration reaches `break`. -/
def level_add_stairs (l : level) (upstair downstair : Bool) :
    List Int → Option (level × List Int)
  | upy :: upx :: doy :: dox :: rest =>
    if |(upy + upx) - (doy + dox)| < 50 then
      level_add_stairs l upstair downstair rest
    else if ¬ tile_is_empty (l.tile upy upx) then
      level_add_stairs l upstair downstair rest
    else if ¬ tile_is_empty (l.tile doy dox) then
      level_add_stairs l upstair downstair rest
    else
      let l := if upstair then l.set_type upy upx T_UPSTAIR else l
      let l := if downstair then l.set_type doy dox T_DOWNSTAIR else l
      some (l, rest)
  | _ => none

/-- Modelled from the spec: the contract of `rng_rand_uniform`, "integer in
`[0, bound)`", on the values that `level_add_stairs` draws: rows below `MAXROWS`,
columns below `MAXCOLS`. -/
def stair_draws_in_range (MAXROWS MAXCOLS : Nat) : List Int → Prop
  | upy :: upx :: doy :: dox :: rest =>
    in_grid MAXROWS MAXCOLS upy upx ∧ in_grid MAXROWS MAXCOLS doy dox
      ∧ stair_draws_in_range MAXROWS MAXCOLS rest
  | _ => True

/-! ## level.c: the world -/

/-- Modelled from the spec: `struct world` of `level.h`: the cursor, the slot count and
the slots `levels[i]`, each `NULL` (`none`) or the level it points to. -/
structure world where
  current : Int
  levelsz : Int
  levels : Int → Option level

/-- The assignment `w->levels[i] = l`. -/
def world.set_level (w : world) (i : Int) (l : level) : world :=
  { w with levels := fun j => if j = i then some l else w.levels j }

/-- The function `world_current` of `level.c`. -/
def world_current (w : world) : Option level :=
  w.levels w.current

/-- The function `world_first` of `level.c`. -/
def world_first (w : world) : Option level :=
  w.levels 0

/-- The function `world_next` of `level.c`: the world afterwards and the returned
level. -/
def world_next (w : world) : world × Option level :=
  let w := if w.current + 1 < w.levelsz then { w with current := w.current + 1 } else w
  (w, world_current w)

/-- The function `world_prev` of `level.c`: the world afterwards and the returned
level. -/
def world_prev (w : world) : world × Option level :=
  let w := if w.current - 1 ≥ 0 then { w with current := w.current - 1 } else w
  (w, world_current w)

/-- The function `world_add` of `level.c`: the first `NULL` slot receives `l`. -/
def world_add (w : world) (l : level) : world :=
  match for_search 0 w.levelsz (fun i => if (w.levels i).isNone then some i else none) with
  | some i => w.set_level i l
  | none => w

/-- The level object that `calloc` returns in `world_init`; `level_init` overwrites the
origin and every tile of the grid. -/
def calloc_level : level :=
  { type := L_NONE, tile := fun _ _ => { type := T_EMPTY, creature := none } }

/-- The part of the loop body of `world_init` that builds the level of index `i`:
`level_init`, `cave_gen`, `level_refine`, and the chain of tests on `i` that chooses the
flags of `level_add_stairs`.  The cave generator is not among the sources; it is a
parameter that maps the level and the random source to the level it leaves and the
values left in the source. -/
def world_init_level (MAXROWS MAXCOLS : Nat)
    (cave_gen : level → List Int → level × List Int) (levelsz i : Int) (draws : List Int) :
    Option (level × List Int) :=
  let l := level_init MAXROWS MAXCOLS calloc_level
  let (l, draws) := cave_gen l draws
  let l := level_refine MAXROWS MAXCOLS l
  if 0 = i then
    level_add_stairs l true false draws
  else if levelsz - 1 = i then
    level_add_stairs l false true draws
  else
    level_add_stairs l true true draws

/-- The function `world_init` of `level.c`.  The file read of `level_load` is an input:
`level_load` maps the level before the load to the level after it (a failed load exits
the process).  The result is `none` when `level_add_stairs` does not terminate on the
values of the random source. -/
def world_init (MAXROWS MAXCOLS : Nat) (level_load : level → level)
    (cave_gen : level → List Int → level × List Int) (draws : List Int) :
    Option (world × List Int) :=
  let w : world := { current := 0, levelsz := 3, levels := fun _ => none }
  let l := level_init MAXROWS MAXCOLS calloc_level
  let l := level_load l
  let l := level_refine MAXROWS MAXCOLS l
  let w := w.set_level 0 l
  for_loop 1 w.levelsz (fun i s =>
    match s with
    | none => none
    | some (w, draws) =>
      match world_init_level MAXROWS MAXCOLS cave_gen w.levelsz i draws with
      | none => none
      | some (l, draws) =>
        let w := w.set_level i l
        let w := world_add w l
        some (w, draws)) (some (w, draws))

/-! ## creature.c -/

/-- The two loops of `creature_place_at_stair` with their test: the cell at which the
body is entered and returns, if any. -/
def place_at_stair_scan (MAXROWS MAXCOLS : Nat) (l : level) (up : Bool) : Option (Int × Int) :=
  for_search 0 MAXROWS (fun y => for_search 0 MAXCOLS (fun x =>
    if ((l.tile y x).type = T_UPSTAIR ∧ up = true)
        ∨ ((l.tile y x).type = T_DOWNSTAIR ∧ ¬ up = true) then some (y, x) else none))

/-- The function `creature_place_at_stair` of `creature.c`: the row-major scan returns
at the first matching tile; without a match nothing is written. -/
def creature_place_at_stair (MAXROWS MAXCOLS : Nat) (c : creature_ptr) (m : creatures)
    (l : level) (up : Bool) : creatures × level :=
  match place_at_stair_scan MAXROWS MAXCOLS l up with
  | some (y, x) =>
    let m := m.set_x c x
    let m := m.set_y c y
    let l := l.set_creature y x (some c)
    (m, l)
  | none => (m, l)

/-- The function `creature_move` of `creature.c`: the returned `int`, the creature
store and the level afterwards. -/
def creature_move (MAXROWS MAXCOLS : Nat) (c : creature_ptr) (m : creatures) (l : level)
    (row col : Int) : Int × creatures × level :=
  if (m c).y + row < 0 ∨ (m c).y + row ≥ MAXROWS then
    (-1, m, l)
  else if (m c).x + col < 0 ∨ (m c).x + col ≥ MAXCOLS then
    (-1, m, l)
  else if tile_is_wall (l.tile ((m c).y + row) ((m c).x + col)) then
    (-1, m, l)
  else if tile_is_empty (l.tile ((m c).y + row) ((m c).x + col)) = false then
    (-1, m, l)
  else
    let l := l.set_creature (m c).y (m c).x none
    let m := m.set_y c ((m c).y + row)
    let m := m.set_x c ((m c).x + col)
    let l := l.set_creature (m c).y (m c).x (some c)
    (0, m, l)

/-- The function `creature_move_left` of `creature.c`. -/
def creature_move_left (MAXROWS MAXCOLS : Nat) (c : creature_ptr) (m : creatures) (l : level) :
    Int × creatures × level :=
  creature_move MAXROWS MAXCOLS c m l 0 (-1)

/-- The function `creature_move_down` of `creature.c`. -/
def creature_move_down (MAXROWS MAXCOLS : Nat) (c : creature_ptr) (m : creatures) (l : level) :
    Int × creatures × level :=
  creature_move MAXROWS MAXCOLS c m l 1 0

/-- The function `creature_move_up` of `creature.c`. -/
def creature_move_up (MAXROWS MAXCOLS : Nat) (c : creature_ptr) (m : creatures) (l : level) :
    Int × creatures × level :=
  creature_move MAXROWS MAXCOLS c m l (-1) 0

/-- The function `creature_move_right` of `creature.c`. -/
def creature_move_right (MAXROWS MAXCOLS : Nat) (c : creature_ptr) (m : creatures) (l : level) :
    Int × creatures × level :=
  creature_move MAXROWS MAXCOLS c m l 0 1

/-- The function `creature_move_upleft` of `creature.c`. -/
def creature_move_upleft (MAXROWS MAXCOLS : Nat) (c : creature_ptr) (m : creatures) (l : level) :
    Int × creatures × level :=
  creature_move MAXROWS MAXCOLS c m l (-1) (-1)

/-- The function `creature_move_downleft` of `creature.c`. -/
def creature_move_downleft (MAXROWS MAXCOLS : Nat) (c : creature_ptr) (m : creatures) (l : level) :
    Int × creatures × level :=
  creature_move MAXROWS MAXCOLS c m l 1 (-1)

/-- The function `creature_move_upright` of `creature.c`. -/
def creature_move_upright (MAXROWS MAXCOLS : Nat) (c : creature_ptr) (m : creatures) (l : level) :
    Int × creatures × level :=
  creature_move MAXROWS MAXCOLS c m l (-1) 1

/-- The function `creature_move_downright` of `creature.c`. -/
def creature_move_downright (MAXROWS MAXCOLS : Nat) (c : creature_ptr) (m : creatures) (l : level) :
    Int × creatures × level :=
  creature_move MAXROWS MAXCOLS c m l 1 1

/-- The function `creature_climb_upstair` of `creature.c`, for `f` and `t` pointing to
two distinct level objects (`creature_climb_upstair_same` is the call with one object):
the returned `int`, the creature store and both levels afterwards. -/
def creature_climb_upstair (MAXROWS MAXCOLS : Nat) (c : creature_ptr) (m : creatures)
    (f t : level) : Int × creatures × level × level :=
  if (f.tile (m c).y (m c).x).type ≠ T_UPSTAIR then
    (-1, m, f, t)
  else
    let f := f.set_creature (m c).y (m c).x none
    let (m, t) := creature_place_at_stair MAXROWS MAXCOLS c m t false
    (0, m, f, t)

/-- The function `creature_climb_downstair` of `creature.c`, for `f` and `t` pointing to
two distinct level objects (`creature_climb_downstair_same` is the call with one object):
the returned `int`, the creature store and both levels afterwards. -/
def creature_climb_downstair (MAXROWS MAXCOLS : Nat) (c : creature_ptr) (m : creatures)
    (f t : level) : Int × creatures × level × level :=
  if (f.tile (m c).y (m c).x).type ≠ T_DOWNSTAIR then
    (-1, m, f, t)
  else
    let f := f.set_creature (m c).y (m c).x none
    let (m, t) := creature_place_at_stair MAXROWS MAXCOLS c m t true
    (0, m, f, t)

/-- The function `creature_climb_upstair` of `creature.c` when `f` and `t` point to the
same level object `l`: the write through `f` is seen by the scan through `t`.  The
returned `int`, the creature store and the level afterwards. -/
def creature_climb_upstair_same (MAXROWS MAXCOLS : Nat) (c : creature_ptr) (m : creatures)
    (l : level) : Int × creatures × level :=
  if (l.tile (m c).y (m c).x).type ≠ T_UPSTAIR then
    (-1, m, l)
  else
    let l := l.set_creature (m c).y (m c).x none
    let (m, l) := creature_place_at_stair MAXROWS MAXCOLS c m l false
    (0, m, l)

/-- The function `creature_climb_downstair` of `creature.c` when `f` and `t` point to the
same level object `l`: the write through `f` is seen by the scan through `t`.  The
returned `int`, the creature store and the level afterwards. -/
def creature_climb_downstair_same (MAXROWS MAXCOLS : Nat) (c : creature_ptr) (m : creatures)
    (l : level) : Int × creatures × level :=
  if (l.tile (m c).y (m c).x).type ≠ T_DOWNSTAIR then
    (-1, m, l)
  else
    let l := l.set_creature (m c).y (m c).x none
    let (m, l) := creature_place_at_stair MAXROWS MAXCOLS c m l true
    (0, m, l)

/-! ## Vocabulary of the statements -/

/-- What the body of `level_refine` at `(y, x)` makes of the tile `t` found at
`l->tile[y][x]`, given the snapshot `tmp`. -/
def refined_tile (tmp : level) (y x : Int) (t : tile) : tile :=
  if (tmp.tile y x).type ≠ T_WALL then t
  else
    match refine_assign (refine_nwall tmp y x) with
    | some ty => { t with type := ty }
    | none => t

/-- The tile `(y, x)` is the first tile of type `ty` of the grid in row-major order. -/
def first_of_type (MAXROWS MAXCOLS : Nat) (l : level) (ty : tile_type) (y x : Int) : Prop :=
  in_grid MAXROWS MAXCOLS y x ∧ (l.tile y x).type = ty
    ∧ ∀ y' x' : Int, in_grid MAXROWS MAXCOLS y' x' → (y' < y ∨ (y' = y ∧ x' < x))
        → (l.tile y' x').type ≠ ty

/-- The grid of `l` is empty everywhere except for the 3x3 block of `T_WALL` tiles
centred at `(cy, cx)`. -/
def wall_block (MAXROWS MAXCOLS : Nat) (l : level) (cy cx : Int) : Prop :=
  ∀ y x : Int, in_grid MAXROWS MAXCOLS y x →
    (l.tile y x).type
      = if cy - 1 ≤ y ∧ y ≤ cy + 1 ∧ cx - 1 ≤ x ∧ x ≤ cx + 1 then T_WALL else T_EMPTY

/-- The state made of the creature store `m` and the level `l` is consistent: every
tile of the grid that has an occupant is located at the coordinates stored in that
occupant. -/
def consistent (MAXROWS MAXCOLS : Nat) (m : creatures) (l : level) : Prop :=
  ∀ (y x : Int) (p : creature_ptr), in_grid MAXROWS MAXCOLS y x →
    (l.tile y x).creature = some p → (m p).y = y ∧ (m p).x = x

/-- The chain of `level_refine` with the four exact-mask disjuncts `nwall == 127`,
`nwall == 223`, `nwall == 251` and `nwall == 254` removed from the corner rules. -/
def refine_assign_without_exact (nwall : Nat) : Option tile_type :=
  if nwall = 255 then some T_WALL
  else if 90 = nwall ∨ 91 = nwall ∨ 94 = nwall then some T_CROSS
  else if (nwall &&& 88) = 88 then some T_BTEE
  else if (nwall &&& 82) = 82 then some T_RTEE
  else if (nwall &&& 74) = 74 then some T_LTEE
  else if (nwall &&& 26) = 26 then some T_TTEE
  else if (nwall &&& 80) = 80 then some T_LRCORNER
  else if (nwall &&& 72) = 72 then some T_LLCORNER
  else if (nwall &&& 18) = 18 then some T_URCORNER
  else if (nwall &&& 10) = 10 then some T_ULCORNER
  else if (nwall ||| 66) = nwall ∨ (nwall ||| 64) = nwall ∨ (nwall ||| 2) = nwall then
    some T_VLINE
  else if (nwall ||| 34) = nwall ∨ (nwall ||| 16) = nwall ∨ (nwall ||| 8) = nwall then
    some T_HLINE
  else none

/-- The type is one of the eleven directional glyphs. -/
def is_glyph (ty : tile_type) : Prop :=
  ty = T_HLINE ∨ ty = T_VLINE ∨ ty = T_BTEE ∨ ty = T_TTEE ∨ ty = T_LTEE ∨ ty = T_RTEE
    ∨ ty = T_CROSS ∨ ty = T_LLCORNER ∨ ty = T_LRCORNER ∨ ty = T_ULCORNER ∨ ty = T_URCORNER

instance (ty : tile_type) : Decidable (is_glyph ty) := by
  unfold is_glyph; infer_instance

/-! ## Sample inputs -/

/-- A level with a 3x3 block of `T_WALL` tiles centred at `(10, 10)`, empty elsewhere. -/
def block_level : level :=
  { type := L_STATIC
    tile := fun y x =>
      if 9 ≤ y ∧ y ≤ 11 ∧ 9 ≤ x ∧ x ≤ 11 then { type := T_WALL, creature := none }
      else { type := T_EMPTY, creature := none } }

/-- A creature store: a human at `(5, 5)` at address 1, goblins at `(0, 0)` elsewhere. -/
def sample_creatures : creatures :=
  fun p =>
    if p = 1 then { race := R_HUMAN, y := 5, x := 5, speed := 5, actionpoints := 0 }
    else { race := R_GOBLIN, y := 0, x := 0, speed := 7, actionpoints := 0 }

/-- The empty level of `level_init` with the creature at address 1 standing on `(5, 5)`. -/
def sample_level : level :=
  (level_init 22 80 block_level).set_creature 5 5 (some 1)

/-- A world of three empty levels with the cursor on the middle one. -/
def sample_world : world :=
  { current := 1
    levelsz := 3
    levels := fun i => if 0 ≤ i ∧ i < 3 then some (level_init 22 80 block_level) else none }

/-- A level whose only stair tiles are an up-stair at `(3, 4)` and a down-stair at
`(20, 70)`, empty and unoccupied elsewhere. -/
def stairs_level : level :=
  (((level_init 22 80 block_level).set_type 3 4 T_UPSTAIR).set_type 20 70 T_DOWNSTAIR)

/-- The empty level with a down-stair under the creature at address 1, at `(5, 5)`. -/
def on_downstair_level : level :=
  sample_level.set_type 5 5 T_DOWNSTAIR

/-- The empty level with an up-stair under the creature at address 1, at `(5, 5)`. -/
def on_upstair_level : level :=
  sample_level.set_type 5 5 T_UPSTAIR

/-- A level with a block of `T_WALL` tiles three rows high and four columns wide, rows 1
to 3 and columns 1 to 4, empty elsewhere: `(2, 2)` and `(2, 3)` are both enclosed. -/
def wide_block_level : level :=
  { type := L_STATIC
    tile := fun y x =>
      if 1 ≤ y ∧ y ≤ 3 ∧ 1 ≤ x ∧ x ≤ 4 then { type := T_WALL, creature := none }
      else { type := T_EMPTY, creature := none } }

/-- The empty level with one up-stair at `(3, 4)` on which the creature at address 2
stands. -/
def occupied_stair_level : level :=
  ((level_init 22 80 block_level).set_type 3 4 T_UPSTAIR).set_creature 3 4 (some 2)

/-- A creature store: a human at `(5, 5)` at address 1, a goblin at `(3, 4)` at address
2, goblins at `(0, 0)` elsewhere. -/
def two_creatures : creatures :=
  fun p =>
    if p = 1 then { race := R_HUMAN, y := 5, x := 5, speed := 5, actionpoints := 0 }
    else if p = 2 then { race := R_GOBLIN, y := 3, x := 4, speed := 7, actionpoints := 0 }
    else { race := R_GOBLIN, y := 0, x := 0, speed := 7, actionpoints := 0 }

/-! ## Lemmas on level_refine -/

theorem set_type_tile (l : level) (y x : Int) (t : tile_type) (y' x' : Int) :
    (l.set_type y x t).tile y' x'
      = if y' = y ∧ x' = x then { l.tile y' x' with type := t } else l.tile y' x' := rfl

theorem set_creature_tile (l : level) (y x : Int) (p : Option creature_ptr) (y' x' : Int) :
    (l.set_creature y x p).tile y' x'
      = if y' = y ∧ x' = x then { l.tile y' x' with creature := p } else l.tile y' x' := rfl

theorem level_refine_body_tile (tmp l : level) (y x y' x' : Int) :
    (level_refine_body tmp y x l).tile y' x'
      = if y' = y ∧ x' = x then refined_tile tmp y x (l.tile y' x') else l.tile y' x' := by
  unfold level_refine_body refined_tile
  by_cases hw : (tmp.tile y x).type = T_WALL
  · cases hr : refine_assign (refine_nwall tmp y x) <;> simp [hw, set_type_tile]
  · simp [hw]

theorem level_refine_body_type (tmp l : level) (y x : Int) :
    (level_refine_body tmp y x l).type = l.type := by
  unfold level_refine_body
  by_cases hw : (tmp.tile y x).type = T_WALL
  · cases hr : refine_assign (refine_nwall tmp y x) <;> simp [hw, level.set_type]
  · simp [hw]

theorem refine_row_tile (tmp : level) (y : Int) (n : Nat) :
    ∀ (x0 : Int) (l : level) (y' x' : Int),
      (loop_from (fun x l => level_refine_body tmp y x l) n x0 l).tile y' x'
        = if y' = y ∧ x0 ≤ x' ∧ x' < x0 + n then refined_tile tmp y x' (l.tile y' x')
          else l.tile y' x' := by
  induction n with
  | zero =>
    intro x0 l y' x'
    have : ¬ (y' = y ∧ x0 ≤ x' ∧ x' < x0 + ((0 : Nat) : Int)) := by omega
    rw [loop_from, if_neg this]
  | succ n ih =>
    intro x0 l y' x'
    rw [loop_from, ih, level_refine_body_tile]
    by_cases hy : y' = y
    · by_cases hx : x' = x0
      · have h1 : ¬ (y' = y ∧ x0 + 1 ≤ x' ∧ x' < x0 + 1 + (n : Int)) := by omega
        have h2 : y' = y ∧ x0 ≤ x' ∧ x' < x0 + ((n + 1 : Nat) : Int) := by
          refine ⟨hy, ?_, ?_⟩ <;> push_cast <;> omega
        rw [if_neg h1, if_pos ⟨hy, hx⟩, if_pos h2, hx]
      · by_cases hr : x0 + 1 ≤ x' ∧ x' < x0 + 1 + (n : Int)
        · have h2 : y' = y ∧ x0 ≤ x' ∧ x' < x0 + ((n + 1 : Nat) : Int) := by
            refine ⟨hy, ?_, ?_⟩ <;> push_cast <;> omega
          have h3 : ¬ (y' = y ∧ x' = x0) := fun h => hx h.2
          rw [if_pos ⟨hy, hr⟩, if_neg h3, if_pos h2]
        · have h1 : ¬ (y' = y ∧ x0 + 1 ≤ x' ∧ x' < x0 + 1 + (n : Int)) := fun h => hr h.2
          have h2 : ¬ (y' = y ∧ x0 ≤ x' ∧ x' < x0 + ((n + 1 : Nat) : Int)) := by
            push_cast; omega
          have h3 : ¬ (y' = y ∧ x' = x0) := fun h => hx h.2
          rw [if_neg h1, if_neg h3, if_neg h2]
    · have h1 : ¬ (y' = y ∧ x0 + 1 ≤ x' ∧ x' < x0 + 1 + (n : Int)) := fun h => hy h.1
      have h2 : ¬ (y' = y ∧ x0 ≤ x' ∧ x' < x0 + ((n + 1 : Nat) : Int)) := fun h => hy h.1
      have h3 : ¬ (y' = y ∧ x' = x0) := fun h => hy h.1
      rw [if_neg h1, if_neg h3, if_neg h2]

theorem refine_row_type (tmp : level) (y : Int) (n : Nat) :
    ∀ (x0 : Int) (l : level),
      (loop_from (fun x l => level_refine_body tmp y x l) n x0 l).type = l.type := by
  induction n with
  | zero => intro x0 l; rfl
  | succ n ih => intro x0 l; rw [loop_from, ih, level_refine_body_type]

theorem refine_rows_tile (tmp : level) (lo hi : Int) (n : Nat) :
    ∀ (y0 : Int) (l : level) (y' x' : Int),
      (loop_from (fun y l => for_loop lo hi (fun x l => level_refine_body tmp y x l) l)
          n y0 l).tile y' x'
        = if (y0 ≤ y' ∧ y' < y0 + n) ∧ lo ≤ x' ∧ x' < hi
          then refined_tile tmp y' x' (l.tile y' x') else l.tile y' x' := by
  induction n with
  | zero =>
    intro y0 l y' x'
    have : ¬ ((y0 ≤ y' ∧ y' < y0 + ((0 : Nat) : Int)) ∧ lo ≤ x' ∧ x' < hi) := by omega
    rw [loop_from, if_neg this]
  | succ n ih =>
    intro y0 l y' x'
    rw [loop_from, ih, for_loop, refine_row_tile]
    have hcol : (lo ≤ x' ∧ x' < lo + (((hi - lo).toNat : Nat) : Int)) ↔ (lo ≤ x' ∧ x' < hi) := by
      omega
    by_cases hx : lo ≤ x' ∧ x' < hi
    · have hx' := hcol.mpr hx
      by_cases hy : y' = y0
      · have h1 : ¬ ((y0 + 1 ≤ y' ∧ y' < y0 + 1 + (n : Int)) ∧ lo ≤ x' ∧ x' < hi) := by omega
        have h2 : (y0 ≤ y' ∧ y' < y0 + ((n + 1 : Nat) : Int)) ∧ lo ≤ x' ∧ x' < hi := by
          refine ⟨⟨?_, ?_⟩, hx⟩ <;> push_cast <;> omega
        rw [if_neg h1, if_pos ⟨hy, hx'⟩, if_pos h2, hy]
      · have h3 : ¬ (y' = y0 ∧ lo ≤ x' ∧ x' < lo + (((hi - lo).toNat : Nat) : Int)) :=
          fun h => hy h.1
        by_cases hr : y0 + 1 ≤ y' ∧ y' < y0 + 1 + (n : Int)
        · have h2 : (y0 ≤ y' ∧ y' < y0 + ((n + 1 : Nat) : Int)) ∧ lo ≤ x' ∧ x' < hi := by
            refine ⟨⟨?_, ?_⟩, hx⟩ <;> push_cast <;> omega
          rw [if_pos ⟨hr, hx⟩, if_neg h3, if_pos h2]
        · have h1 : ¬ ((y0 + 1 ≤ y' ∧ y' < y0 + 1 + (n : Int)) ∧ lo ≤ x' ∧ x' < hi) :=
            fun h => hr h.1
          have h2 : ¬ ((y0 ≤ y' ∧ y' < y0 + ((n + 1 : Nat) : Int)) ∧ lo ≤ x' ∧ x' < hi) := by
            push_cast; omega
          rw [if_neg h1, if_neg h3, if_neg h2]
    · have h1 : ¬ ((y0 + 1 ≤ y' ∧ y' < y0 + 1 + (n : Int)) ∧ lo ≤ x' ∧ x' < hi) :=
        fun h => hx h.2
      have h2 : ¬ ((y0 ≤ y' ∧ y' < y0 + ((n + 1 : Nat) : Int)) ∧ lo ≤ x' ∧ x' < hi) :=
        fun h => hx h.2
      have h3 : ¬ (y' = y0 ∧ lo ≤ x' ∧ x' < lo + (((hi - lo).toNat : Nat) : Int)) :=
        fun h => hx (hcol.mp h.2)
      rw [if_neg h1, if_neg h3, if_neg h2]

theorem refine_rows_type (tmp : level) (lo hi : Int) (n : Nat) :
    ∀ (y0 : Int) (l : level),
      (loop_from (fun y l => for_loop lo hi (fun x l => level_refine_body tmp y x l) l)
          n y0 l).type = l.type := by
  induction n with
  | zero => intro y0 l; rfl
  | succ n ih => intro y0 l; rw [loop_from, ih, for_loop, refine_row_type]

/-- The tile of the refined level at any cell: the body applied once to the input tile
at the interior cells, the input tile elsewhere. -/
theorem level_refine_tile (MAXROWS MAXCOLS : Nat) (l : level) (y x : Int) :
    (level_refine MAXROWS MAXCOLS l).tile y x
      = if interior MAXROWS MAXCOLS y x then refined_tile l y x (l.tile y x)
        else l.tile y x := by
  unfold level_refine
  rw [for_loop, refine_rows_tile]
  have hiff : ((1 ≤ y ∧ y < 1 + ((((MAXROWS : Int) - 1 - 1).toNat : Nat) : Int))
      ∧ 1 ≤ x ∧ x < (MAXCOLS : Int) - 1) ↔ interior MAXROWS MAXCOLS y x := by
    unfold interior; omega
  by_cases h : interior MAXROWS MAXCOLS y x
  · rw [if_pos (hiff.mpr h), if_pos h]
  · rw [if_neg (fun h' => h (hiff.mp h')), if_neg h]

theorem level_refine_type (MAXROWS MAXCOLS : Nat) (l : level) :
    (level_refine MAXROWS MAXCOLS l).type = l.type := by
  unfold level_refine
  rw [for_loop, refine_rows_type]

/-- The accumulator of the code is the weighted sum of the spec. -/
theorem refine_nwall_eq_mask (tmp : level) (y x : Int) :
    refine_nwall tmp y x = neighbour_mask tmp y x := by
  unfold refine_nwall neighbour_mask wall_bit
  by_cases h1 : (tmp.tile (y - 1) (x - 1)).type = T_WALL <;>
  by_cases h2 : (tmp.tile (y - 1) x).type = T_WALL <;>
  by_cases h3 : (tmp.tile (y - 1) (x + 1)).type = T_WALL <;>
  by_cases h4 : (tmp.tile y (x - 1)).type = T_WALL <;>
  by_cases h5 : (tmp.tile y (x + 1)).type = T_WALL <;>
  by_cases h6 : (tmp.tile (y + 1) (x - 1)).type = T_WALL <;>
  by_cases h7 : (tmp.tile (y + 1) x).type = T_WALL <;>
  by_cases h8 : (tmp.tile (y + 1) (x + 1)).type = T_WALL <;>
  simp only [h1, h2, h3, h4, h5, h6, h7, h8, if_true, if_false] <;> rfl

theorem wall_bit_le (t : tile) (w : Nat) : wall_bit t w ≤ w := by
  unfold wall_bit; split_ifs <;> omega

theorem neighbour_mask_lt (g : level) (y x : Int) : neighbour_mask g y x < 256 := by
  unfold neighbour_mask
  have h1 := wall_bit_le (g.tile (y - 1) (x - 1)) 128
  have h2 := wall_bit_le (g.tile (y - 1) x) 64
  have h3 := wall_bit_le (g.tile (y - 1) (x + 1)) 32
  have h4 := wall_bit_le (g.tile y (x - 1)) 16
  have h5 := wall_bit_le (g.tile y (x + 1)) 8
  have h6 := wall_bit_le (g.tile (y + 1) (x - 1)) 4
  have h7 := wall_bit_le (g.tile (y + 1) x) 2
  have h8 := wall_bit_le (g.tile (y + 1) (x + 1)) 1
  omega

/-- The chain of the code, read with "no assignment keeps `T_WALL`", is the table. -/
theorem refine_assign_classify (m : Nat) : (refine_assign m).getD T_WALL = classify m := by
  have e : (90 = m ∨ 91 = m ∨ 94 = m) = (m = 90 ∨ m = 91 ∨ m = 94) := by
    apply propext; omega
  unfold refine_assign classify
  simp only [e, apply_ite (fun o => Option.getD o T_WALL), Option.getD_some, Option.getD_none]

/-- An interior cell that is `T_WALL` in the input gets the classification of its
input neighbour mask. -/
theorem level_refine_wall_cell (MAXROWS MAXCOLS : Nat) (l : level) (y x : Int)
    (hi : interior MAXROWS MAXCOLS y x) (hw : (l.tile y x).type = T_WALL) :
    ((level_refine MAXROWS MAXCOLS l).tile y x).type = classify (neighbour_mask l y x) := by
  rw [level_refine_tile, if_pos hi, ← refine_assign_classify, ← refine_nwall_eq_mask]
  unfold refined_tile
  cases hr : refine_assign (refine_nwall l y x) <;> simp [hw]

/-- The refinement of a 3x3 wall block whose nine cells are interior: the centre keeps
`T_WALL` with mask 255, the four tiles edge-adjacent to the centre have three wall
neighbours among north, west, east, south and become tees. -/
theorem wall_block_refined (MAXROWS MAXCOLS : Nat) (l : level) (cy cx : Int)
    (hb : wall_block MAXROWS MAXCOLS l cy cx)
    (hy1 : 2 ≤ cy) (hy2 : cy ≤ (MAXROWS : Int) - 3)
    (hx1 : 2 ≤ cx) (hx2 : cx ≤ (MAXCOLS : Int) - 3) :
    neighbour_mask l cy cx = 255
      ∧ ((level_refine MAXROWS MAXCOLS l).tile cy cx).type = T_WALL
      ∧ ((level_refine MAXROWS MAXCOLS l).tile (cy - 1) cx).type = T_TTEE
      ∧ ((level_refine MAXROWS MAXCOLS l).tile (cy + 1) cx).type = T_BTEE
      ∧ ((level_refine MAXROWS MAXCOLS l).tile cy (cx - 1)).type = T_LTEE
      ∧ ((level_refine MAXROWS MAXCOLS l).tile cy (cx + 1)).type = T_RTEE := by
  have ty1 : ∀ y x : Int, cy - 1 ≤ y ∧ y ≤ cy + 1 ∧ cx - 1 ≤ x ∧ x ≤ cx + 1 →
      (l.tile y x).type = T_WALL := by
    intro y x h
    rw [hb y x (by unfold in_grid; omega), if_pos h]
  have wb1 : ∀ (y x : Int) (w : Nat), cy - 1 ≤ y ∧ y ≤ cy + 1 ∧ cx - 1 ≤ x ∧ x ≤ cx + 1 →
      wall_bit (l.tile y x) w = w := by
    intro y x w h
    unfold wall_bit
    rw [if_pos (ty1 y x h)]
  have wb0 : ∀ (y x : Int) (w : Nat), cy - 2 ≤ y ∧ y ≤ cy + 2 ∧ cx - 2 ≤ x ∧ x ≤ cx + 2 →
      ¬ (cy - 1 ≤ y ∧ y ≤ cy + 1 ∧ cx - 1 ≤ x ∧ x ≤ cx + 1) →
      wall_bit (l.tile y x) w = 0 := by
    intro y x w h h'
    unfold wall_bit
    rw [hb y x (by unfold in_grid; omega), if_neg h']
    simp
  have mc : neighbour_mask l cy cx = 255 := by
    unfold neighbour_mask
    rw [wb1 (cy - 1) (cx - 1) 128 (by omega), wb1 (cy - 1) cx 64 (by omega),
      wb1 (cy - 1) (cx + 1) 32 (by omega), wb1 cy (cx - 1) 16 (by omega),
      wb1 cy (cx + 1) 8 (by omega), wb1 (cy + 1) (cx - 1) 4 (by omega),
      wb1 (cy + 1) cx 2 (by omega), wb1 (cy + 1) (cx + 1) 1 (by omega)]
  have mn : neighbour_mask l (cy - 1) cx = 31 := by
    unfold neighbour_mask
    rw [wb0 (cy - 1 - 1) (cx - 1) 128 (by omega) (by omega),
      wb0 (cy - 1 - 1) cx 64 (by omega) (by omega),
      wb0 (cy - 1 - 1) (cx + 1) 32 (by omega) (by omega),
      wb1 (cy - 1) (cx - 1) 16 (by omega), wb1 (cy - 1) (cx + 1) 8 (by omega),
      wb1 (cy - 1 + 1) (cx - 1) 4 (by omega), wb1 (cy - 1 + 1) cx 2 (by omega),
      wb1 (cy - 1 + 1) (cx + 1) 1 (by omega)]
  have ms : neighbour_mask l (cy + 1) cx = 248 := by
    unfold neighbour_mask
    rw [wb1 (cy + 1 - 1) (cx - 1) 128 (by omega), wb1 (cy + 1 - 1) cx 64 (by omega),
      wb1 (cy + 1 - 1) (cx + 1) 32 (by omega), wb1 (cy + 1) (cx - 1) 16 (by omega),
      wb1 (cy + 1) (cx + 1) 8 (by omega),
      wb0 (cy + 1 + 1) (cx - 1) 4 (by omega) (by omega),
      wb0 (cy + 1 + 1) cx 2 (by omega) (by omega),
      wb0 (cy + 1 + 1) (cx + 1) 1 (by omega) (by omega)]
  have mw : neighbour_mask l cy (cx - 1) = 107 := by
    unfold neighbour_mask
    rw [wb0 (cy - 1) (cx - 1 - 1) 128 (by omega) (by omega),
      wb1 (cy - 1) (cx - 1) 64 (by omega), wb1 (cy - 1) (cx - 1 + 1) 32 (by omega),
      wb0 cy (cx - 1 - 1) 16 (by omega) (by omega), wb1 cy (cx - 1 + 1) 8 (by omega),
      wb0 (cy + 1) (cx - 1 - 1) 4 (by omega) (by omega),
      wb1 (cy + 1) (cx - 1) 2 (by omega), wb1 (cy + 1) (cx - 1 + 1) 1 (by omega)]
  have me : neighbour_mask l cy (cx + 1) = 214 := by
    unfold neighbour_mask
    rw [wb1 (cy - 1) (cx + 1 - 1) 128 (by omega), wb1 (cy - 1) (cx + 1) 64 (by omega),
      wb0 (cy - 1) (cx + 1 + 1) 32 (by omega) (by omega),
      wb1 cy (cx + 1 - 1) 16 (by omega), wb0 cy (cx + 1 + 1) 8 (by omega) (by omega),
      wb1 (cy + 1) (cx + 1 - 1) 4 (by omega), wb1 (cy + 1) (cx + 1) 2 (by omega),
      wb0 (cy + 1) (cx + 1 + 1) 1 (by omega) (by omega)]
  refine ⟨mc, ?_, ?_, ?_, ?_, ?_⟩
  · rw [level_refine_wall_cell MAXROWS MAXCOLS l cy cx (by unfold interior; omega)
      (ty1 _ _ (by omega)), mc]
    decide
  · rw [level_refine_wall_cell MAXROWS MAXCOLS l (cy - 1) cx (by unfold interior; omega)
      (ty1 _ _ (by omega)), mn]
    decide
  · rw [level_refine_wall_cell MAXROWS MAXCOLS l (cy + 1) cx (by unfold interior; omega)
      (ty1 _ _ (by omega)), ms]
    decide
  · rw [level_refine_wall_cell MAXROWS MAXCOLS l cy (cx - 1) (by unfold interior; omega)
      (ty1 _ _ (by omega)), mw]
    decide
  · rw [level_refine_wall_cell MAXROWS MAXCOLS l cy (cx + 1) (by unfold interior; omega)
      (ty1 _ _ (by omega)), me]
    decide

theorem block_level_wall_block : wall_block 22 80 block_level 10 10 := by
  intro y x _
  unfold block_level
  simp only
  by_cases h : 9 ≤ y ∧ y ≤ 11 ∧ 9 ≤ x ∧ x ≤ 11
  · rw [if_pos h, if_pos (by omega)]
  · rw [if_neg h, if_neg (by omega)]

/-- A level without `T_WALL` tiles is left as it is by `level_refine`. -/
theorem level_refine_no_wall (MAXROWS MAXCOLS : Nat) (l : level)
    (h : ∀ y x : Int, (l.tile y x).type ≠ T_WALL) :
    level_refine MAXROWS MAXCOLS l = l := by
  have ht : (level_refine MAXROWS MAXCOLS l).tile = l.tile := by
    funext y x
    rw [level_refine_tile]
    unfold refined_tile
    rw [if_pos (h y x)]
    split_ifs <;> rfl
  have hty := level_refine_type MAXROWS MAXCOLS l
  cases hl : level_refine MAXROWS MAXCOLS l with
  | mk ty tl =>
    rw [hl] at ht hty
    cases l
    simp only at ht hty
    rw [ht, hty]

/-- The first pass over `wide_block_level` leaves `(2, 2)` as `T_WALL`; in the second
pass its only neighbour that is still `T_WALL` is `(2, 3)`, east of it, and it becomes
`T_HLINE`. -/
theorem wide_block_refined_twice (MAXROWS MAXCOLS : Nat) (hR : 5 ≤ MAXROWS)
    (hC : 6 ≤ MAXCOLS) :
    ((level_refine MAXROWS MAXCOLS wide_block_level).tile 2 2).type = T_WALL
      ∧ neighbour_mask (level_refine MAXROWS MAXCOLS wide_block_level) 2 2 = 8
      ∧ ((level_refine MAXROWS MAXCOLS
          (level_refine MAXROWS MAXCOLS wide_block_level)).tile 2 2).type = T_HLINE := by
  have hi : ∀ y x : Int, 1 ≤ y → y ≤ 3 → 1 ≤ x → x ≤ 4 → interior MAXROWS MAXCOLS y x := by
    intro y x h1 h2 h3 h4
    unfold interior
    omega
  have hc : ((level_refine MAXROWS MAXCOLS wide_block_level).tile 2 2).type = T_WALL := by
    rw [level_refine_wall_cell MAXROWS MAXCOLS _ 2 2
      (hi 2 2 (by decide) (by decide) (by decide) (by decide)) (by decide)]
    decide
  have h1 : ((level_refine MAXROWS MAXCOLS wide_block_level).tile (2 - 1) (2 - 1)).type
      = T_ULCORNER := by
    rw [level_refine_wall_cell MAXROWS MAXCOLS _ (2 - 1) (2 - 1)
      (hi _ _ (by decide) (by decide) (by decide) (by decide)) (by decide)]
    decide
  have h2 : ((level_refine MAXROWS MAXCOLS wide_block_level).tile (2 - 1) 2).type
      = T_TTEE := by
    rw [level_refine_wall_cell MAXROWS MAXCOLS _ (2 - 1) 2
      (hi _ _ (by decide) (by decide) (by decide) (by decide)) (by decide)]
    decide
  have h3 : ((level_refine MAXROWS MAXCOLS wide_block_level).tile (2 - 1) (2 + 1)).type
      = T_TTEE := by
    rw [level_refine_wall_cell MAXROWS MAXCOLS _ (2 - 1) (2 + 1)
      (hi _ _ (by decide) (by decide) (by decide) (by decide)) (by decide)]
    decide
  have h4 : ((level_refine MAXROWS MAXCOLS wide_block_level).tile 2 (2 - 1)).type
      = T_LTEE := by
    rw [level_refine_wall_cell MAXROWS MAXCOLS _ 2 (2 - 1)
      (hi _ _ (by decide) (by decide) (by decide) (by decide)) (by decide)]
    decide
  have h5 : ((level_refine MAXROWS MAXCOLS wide_block_level).tile 2 (2 + 1)).type
      = T_WALL := by
    rw [level_refine_wall_cell MAXROWS MAXCOLS _ 2 (2 + 1)
      (hi _ _ (by decide) (by decide) (by decide) (by decide)) (by decide)]
    decide
  have h6 : ((level_refine MAXROWS MAXCOLS wide_block_level).tile (2 + 1) (2 - 1)).type
      = T_LLCORNER := by
    rw [level_refine_wall_cell MAXROWS MAXCOLS _ (2 + 1) (2 - 1)
      (hi _ _ (by decide) (by decide) (by decide) (by decide)) (by decide)]
    decide
  have h7 : ((level_refine MAXROWS MAXCOLS wide_block_level).tile (2 + 1) 2).type
      = T_BTEE := by
    rw [level_refine_wall_cell MAXROWS MAXCOLS _ (2 + 1) 2
      (hi _ _ (by decide) (by decide) (by decide) (by decide)) (by decide)]
    decide
  have h8 : ((level_refine MAXROWS MAXCOLS wide_block_level).tile (2 + 1) (2 + 1)).type
      = T_BTEE := by
    rw [level_refine_wall_cell MAXROWS MAXCOLS _ (2 + 1) (2 + 1)
      (hi _ _ (by decide) (by decide) (by decide) (by decide)) (by decide)]
    decide
  have hm : neighbour_mask (level_refine MAXROWS MAXCOLS wide_block_level) 2 2 = 8 := by
    unfold neighbour_mask wall_bit
    rw [h1, h2, h3, h4, h5, h6, h7, h8]
    decide
  refine ⟨hc, hm, ?_⟩
  rw [level_refine_wall_cell MAXROWS MAXCOLS _ 2 2
    (hi 2 2 (by decide) (by decide) (by decide) (by decide)) hc, hm]
  decide

/-- The table yields plain `T_WALL` or a glyph, never an empty type. -/
theorem classify_wall_family (m : Nat) : classify m = T_WALL ∨ is_glyph (classify m) := by
  have h : decide (classify m = T_WALL ∨ is_glyph (classify m)) = true := by
    unfold classify
    simp only [apply_ite (fun t => decide (t = T_WALL ∨ is_glyph t))]
    have e1 : decide (True ∨ is_glyph T_WALL) = true := by decide
    have e2 : decide (T_CROSS = T_WALL ∨ is_glyph T_CROSS) = true := by decide
    have e3 : decide (T_BTEE = T_WALL ∨ is_glyph T_BTEE) = true := by decide
    have e4 : decide (T_RTEE = T_WALL ∨ is_glyph T_RTEE) = true := by decide
    have e5 : decide (T_LTEE = T_WALL ∨ is_glyph T_LTEE) = true := by decide
    have e6 : decide (T_TTEE = T_WALL ∨ is_glyph T_TTEE) = true := by decide
    have e7 : decide (T_LRCORNER = T_WALL ∨ is_glyph T_LRCORNER) = true := by decide
    have e8 : decide (T_LLCORNER = T_WALL ∨ is_glyph T_LLCORNER) = true := by decide
    have e9 : decide (T_URCORNER = T_WALL ∨ is_glyph T_URCORNER) = true := by decide
    have e10 : decide (T_ULCORNER = T_WALL ∨ is_glyph T_ULCORNER) = true := by decide
    have e11 : decide (T_VLINE = T_WALL ∨ is_glyph T_VLINE) = true := by decide
    have e12 : decide (T_HLINE = T_WALL ∨ is_glyph T_HLINE) = true := by decide
    simp only [e1, e2, e3, e4, e5, e6, e7, e8, e9, e10, e11, e12, ite_self]
  exact of_decide_eq_true h

/-- Every type that the chain of `level_refine` assigns is plain `T_WALL` or a glyph. -/
theorem refine_assign_wall_family (m : Nat) (ty : tile_type) (h : refine_assign m = some ty) :
    ty = T_WALL ∨ is_glyph ty := by
  have hc := refine_assign_classify m
  rw [h] at hc
  simp only [Option.getD_some] at hc
  rw [hc]
  exact classify_wall_family m

theorem refined_tile_creature (tmp : level) (y x : Int) (t : tile) :
    (refined_tile tmp y x t).creature = t.creature := by
  unfold refined_tile
  split_ifs
  · rfl
  · cases refine_assign (refine_nwall tmp y x) <;> rfl

theorem refined_tile_not_wall (tmp : level) (y x : Int) (t : tile)
    (h : (tmp.tile y x).type ≠ T_WALL) : refined_tile tmp y x t = t := by
  unfold refined_tile
  rw [if_pos h]

/-- The body of `level_refine` keeps both tile predicates on the tile it visits. -/
theorem refined_tile_walkability (l : level) (y x : Int) :
    tile_is_wall (refined_tile l y x (l.tile y x)) = tile_is_wall (l.tile y x)
      ∧ tile_is_empty (refined_tile l y x (l.tile y x)) = tile_is_empty (l.tile y x) := by
  by_cases hw : (l.tile y x).type = T_WALL
  · unfold refined_tile
    rw [if_neg (by simp [hw])]
    cases hr : refine_assign (refine_nwall l y x) with
    | none => exact ⟨rfl, rfl⟩
    | some ty =>
      have hfam := refine_assign_wall_family _ _ hr
      simp only
      unfold is_glyph at hfam
      rcases hfam with h | h | h | h | h | h | h | h | h | h | h | h <;>
        simp [tile_is_wall, tile_is_empty, h, hw]
  · rw [refined_tile_not_wall l y x _ hw]
    exact ⟨rfl, rfl⟩

/-! ## Lemmas on the searching loops -/

theorem search_from_none {ρ : Type} (body : Int → Option ρ) (n : Nat) :
    ∀ i : Int, search_from body n i = none ↔ ∀ j : Int, i ≤ j → j < i + n → body j = none := by
  induction n with
  | zero =>
    intro i
    simp only [search_from, true_iff]
    intro j h1 h2
    exfalso
    push_cast at h2
    omega
  | succ n ih =>
    intro i
    rw [search_from]
    cases hb : body i with
    | some r =>
      simp only [false_iff, reduceCtorEq]
      intro h
      have := h i (le_refl i) (by push_cast; omega)
      rw [hb] at this
      cases this
    | none =>
      simp only
      rw [ih]
      constructor
      · intro h j h1 h2
        by_cases hj : j = i
        · rw [hj]; exact hb
        · exact h j (by omega) (by push_cast at h2; omega)
      · intro h j h1 h2
        exact h j (by omega) (by push_cast; omega)

theorem search_from_some {ρ : Type} (body : Int → Option ρ) (n : Nat) :
    ∀ (i : Int) (r : ρ), search_from body n i = some r →
      ∃ j : Int, i ≤ j ∧ j < i + n ∧ body j = some r
        ∧ ∀ k : Int, i ≤ k → k < j → body k = none := by
  induction n with
  | zero => intro i r h; simp [search_from] at h
  | succ n ih =>
    intro i r h
    rw [search_from] at h
    cases hb : body i with
    | some r' =>
      rw [hb] at h
      simp only [Option.some.injEq] at h
      refine ⟨i, le_refl i, by push_cast; omega, by rw [hb, h], ?_⟩
      intro k h1 h2
      omega
    | none =>
      rw [hb] at h
      obtain ⟨j, h1, h2, h3, h4⟩ := ih (i + 1) r h
      refine ⟨j, by omega, by push_cast; omega, h3, ?_⟩
      intro k hk1 hk2
      by_cases hk : k = i
      · rw [hk]; exact hb
      · exact h4 k (by omega) hk2

/-- The two nested searching loops over the grid find nothing exactly when no cell of
the grid satisfies the test. -/
theorem grid_search_none (MAXROWS MAXCOLS : Nat) (P : Int → Int → Prop)
    [∀ y x, Decidable (P y x)] :
    for_search 0 MAXROWS (fun y => for_search 0 MAXCOLS (fun x =>
        if P y x then some (y, x) else none)) = none
      ↔ ∀ y x : Int, in_grid MAXROWS MAXCOLS y x → ¬ P y x := by
  unfold for_search in_grid
  rw [search_from_none]
  constructor
  · intro h y x hg hP
    have hrow := h y (by omega) (by omega)
    rw [search_from_none] at hrow
    have := hrow x (by omega) (by omega)
    rw [if_pos hP] at this
    cases this
  · intro h y hy1 hy2
    rw [search_from_none]
    intro x hx1 hx2
    rw [if_neg (h y x (by omega))]

/-- The two nested searching loops over the grid return the first cell, in row-major
order, that satisfies the test. -/
theorem grid_search_some (MAXROWS MAXCOLS : Nat) (P : Int → Int → Prop)
    [∀ y x, Decidable (P y x)] (y0 x0 : Int)
    (h : for_search 0 MAXROWS (fun y => for_search 0 MAXCOLS (fun x =>
        if P y x then some (y, x) else none)) = some (y0, x0)) :
    in_grid MAXROWS MAXCOLS y0 x0 ∧ P y0 x0
      ∧ ∀ y x : Int, in_grid MAXROWS MAXCOLS y x → (y < y0 ∨ (y = y0 ∧ x < x0)) → ¬ P y x := by
  unfold for_search at h
  obtain ⟨y, hy1, hy2, hrow, hprev⟩ := search_from_some _ _ _ _ h
  obtain ⟨x, hx1, hx2, hcell, hbefore⟩ := search_from_some _ _ _ _ hrow
  by_cases hP : P y x
  · rw [if_pos hP] at hcell
    simp only [Option.some.injEq, Prod.mk.injEq] at hcell
    obtain ⟨e1, e2⟩ := hcell
    subst e1 e2
    refine ⟨by unfold in_grid; omega, hP, ?_⟩
    intro y' x' hg hlt hP'
    unfold in_grid at hg
    rcases hlt with hlt | ⟨e, hlt⟩
    · have hrow' := hprev y' (by omega) hlt
      rw [search_from_none] at hrow'
      have := hrow' x' (by omega) (by omega)
      rw [if_pos hP'] at this
      cases this
    · subst e
      have := hbefore x' (by omega) hlt
      rw [if_pos hP'] at this
      cases this
  · rw [if_neg hP] at hcell
    cases hcell

/-- When the grid holds a tile of the stair type looked for, `creature_place_at_stair`
places the creature on the first such tile in row-major order. -/
theorem creature_place_at_stair_found (MAXROWS MAXCOLS : Nat) (c : creature_ptr)
    (m : creatures) (l : level) (up : Bool)
    (hex : ∃ y x : Int, in_grid MAXROWS MAXCOLS y x
      ∧ (l.tile y x).type = (if up = true then T_UPSTAIR else T_DOWNSTAIR)) :
    ∃ y0 x0 : Int,
      first_of_type MAXROWS MAXCOLS l (if up = true then T_UPSTAIR else T_DOWNSTAIR) y0 x0
        ∧ creature_place_at_stair MAXROWS MAXCOLS c m l up
            = ((m.set_x c x0).set_y c y0, l.set_creature y0 x0 (some c)) := by
  have hP : ∀ y x : Int,
      (((l.tile y x).type = T_UPSTAIR ∧ up = true) ∨ ((l.tile y x).type = T_DOWNSTAIR ∧ ¬ up = true))
        ↔ (l.tile y x).type = (if up = true then T_UPSTAIR else T_DOWNSTAIR) := by
    intro y x
    cases up <;> simp
  cases hs : place_at_stair_scan MAXROWS MAXCOLS l up with
  | some p =>
    obtain ⟨y0, x0⟩ := p
    have hfound := grid_search_some MAXROWS MAXCOLS _ y0 x0 hs
    refine ⟨y0, x0, ⟨hfound.1, (hP y0 x0).mp hfound.2.1, ?_⟩, ?_⟩
    · intro y' x' hg hlt hty
      exact hfound.2.2 y' x' hg hlt ((hP y' x').mpr hty)
    · simp only [creature_place_at_stair, hs]
  | none =>
    exfalso
    obtain ⟨y, x, hg, hty⟩ := hex
    exact (grid_search_none MAXROWS MAXCOLS _).mp hs y x hg ((hP y x).mpr hty)

/-- What an accepted iteration of `level_add_stairs` did: the values drawn are in the
grid when the random source respects its bounds, the sums differ by at least 50, both
tiles were empty, and the level is the input with the requested stamps. -/
theorem level_add_stairs_accepts (MAXROWS MAXCOLS : Nat) (l : level)
    (upstair downstair : Bool) :
    ∀ (draws : List Int) (l' : level) (rest : List Int),
      stair_draws_in_range MAXROWS MAXCOLS draws →
      level_add_stairs l upstair downstair draws = some (l', rest) →
      ∃ upy upx doy dox : Int,
        in_grid MAXROWS MAXCOLS upy upx ∧ in_grid MAXROWS MAXCOLS doy dox
          ∧ |(upy + upx) - (doy + dox)| ≥ 50
          ∧ tile_is_empty (l.tile upy upx) = true ∧ tile_is_empty (l.tile doy dox) = true
          ∧ l' = (if downstair = true
                then (if upstair = true then l.set_type upy upx T_UPSTAIR else l).set_type
                  doy dox T_DOWNSTAIR
                else (if upstair = true then l.set_type upy upx T_UPSTAIR else l))
  | [], _, _, _, h => by simp [level_add_stairs] at h
  | [_], _, _, _, h => by simp [level_add_stairs] at h
  | [_, _], _, _, _, h => by simp [level_add_stairs] at h
  | [_, _, _], _, _, _, h => by simp [level_add_stairs] at h
  | upy :: upx :: doy :: dox :: tl, l', rest, hr, h => by
    rw [level_add_stairs] at h
    obtain ⟨hup, hdo, htl⟩ := hr
    by_cases h1 : |(upy + upx) - (doy + dox)| < 50
    · rw [if_pos h1] at h
      exact level_add_stairs_accepts MAXROWS MAXCOLS l upstair downstair tl l' rest htl h
    rw [if_neg h1] at h
    by_cases h2 : ¬ tile_is_empty (l.tile upy upx) = true
    · rw [if_pos h2] at h
      exact level_add_stairs_accepts MAXROWS MAXCOLS l upstair downstair tl l' rest htl h
    rw [if_neg h2] at h
    by_cases h3 : ¬ tile_is_empty (l.tile doy dox) = true
    · rw [if_pos h3] at h
      exact level_add_stairs_accepts MAXROWS MAXCOLS l upstair downstair tl l' rest htl h
    rw [if_neg h3] at h
    simp only [Option.some.injEq, Prod.mk.injEq] at h
    refine ⟨upy, upx, doy, dox, hup, hdo, by omega, by simpa using h2, by simpa using h3, ?_⟩
    exact h.1.symm

/-- When the grid holds no tile of the stair type looked for, `creature_place_at_stair`
writes nothing. -/
theorem creature_place_at_stair_absent (MAXROWS MAXCOLS : Nat) (c : creature_ptr)
    (m : creatures) (l : level) (up : Bool)
    (hno : ∀ y x : Int, in_grid MAXROWS MAXCOLS y x
      → (l.tile y x).type ≠ (if up = true then T_UPSTAIR else T_DOWNSTAIR)) :
    creature_place_at_stair MAXROWS MAXCOLS c m l up = (m, l) := by
  have hP : ∀ y x : Int, in_grid MAXROWS MAXCOLS y x →
      ¬ (((l.tile y x).type = T_UPSTAIR ∧ up = true)
        ∨ ((l.tile y x).type = T_DOWNSTAIR ∧ ¬ up = true)) := by
    intro y x hg
    have := hno y x hg
    cases up <;> simpa using this
  have hs : place_at_stair_scan MAXROWS MAXCOLS l up = none :=
    (grid_search_none MAXROWS MAXCOLS _).mpr hP
  simp only [creature_place_at_stair, hs]

/-- Climbing when the target level has no stair of the arrival type: both functions
return 0, the source tile is cleared, the store and the target level are left alone. -/
theorem creature_climb_no_arrival (MAXROWS MAXCOLS : Nat) (c : creature_ptr) (m : creatures)
    (f t : level) :
    ((f.tile (m c).y (m c).x).type = T_DOWNSTAIR
        → (∀ y x : Int, in_grid MAXROWS MAXCOLS y x → (t.tile y x).type ≠ T_UPSTAIR)
        → creature_climb_downstair MAXROWS MAXCOLS c m f t
            = (0, m, f.set_creature (m c).y (m c).x none, t))
      ∧ ((f.tile (m c).y (m c).x).type = T_UPSTAIR
        → (∀ y x : Int, in_grid MAXROWS MAXCOLS y x → (t.tile y x).type ≠ T_DOWNSTAIR)
        → creature_climb_upstair MAXROWS MAXCOLS c m f t
            = (0, m, f.set_creature (m c).y (m c).x none, t)) := by
  constructor
  · intro hf hno
    unfold creature_climb_downstair
    rw [if_neg (by simp [hf]),
      creature_place_at_stair_absent MAXROWS MAXCOLS c m t true (by simpa using hno)]
  · intro hf hno
    unfold creature_climb_upstair
    rw [if_neg (by simp [hf]),
      creature_place_at_stair_absent MAXROWS MAXCOLS c m t false (by simpa using hno)]

/-- Climbing with one level object as source and target, when it has no stair of the
arrival type: both functions return 0 and clear the source tile, nothing else. -/
theorem creature_climb_same_no_arrival (MAXROWS MAXCOLS : Nat) (c : creature_ptr)
    (m : creatures) (l : level) :
    ((l.tile (m c).y (m c).x).type = T_DOWNSTAIR
        → (∀ y x : Int, in_grid MAXROWS MAXCOLS y x → (l.tile y x).type ≠ T_UPSTAIR)
        → creature_climb_downstair_same MAXROWS MAXCOLS c m l
            = (0, m, l.set_creature (m c).y (m c).x none))
      ∧ ((l.tile (m c).y (m c).x).type = T_UPSTAIR
        → (∀ y x : Int, in_grid MAXROWS MAXCOLS y x → (l.tile y x).type ≠ T_DOWNSTAIR)
        → creature_climb_upstair_same MAXROWS MAXCOLS c m l
            = (0, m, l.set_creature (m c).y (m c).x none)) := by
  have hty : ∀ y x : Int,
      ((l.set_creature (m c).y (m c).x none).tile y x).type = (l.tile y x).type := by
    intro y x
    rw [set_creature_tile]
    split_ifs <;> rfl
  constructor
  · intro hf hno
    unfold creature_climb_downstair_same
    rw [if_neg (by simp [hf])]
    dsimp only
    rw [creature_place_at_stair_absent MAXROWS MAXCOLS c m _ true
      (by intro y x hg; rw [hty]; simpa using hno y x hg)]
  · intro hf hno
    unfold creature_climb_upstair_same
    rw [if_neg (by simp [hf])]
    dsimp only
    rw [creature_place_at_stair_absent MAXROWS MAXCOLS c m _ false
      (by intro y x hg; rw [hty]; simpa using hno y x hg)]

/-- The level that `level_init` leaves on the 22x80 grid has no stair tile. -/
theorem level_init_no_stair (l : level) (y x : Int) (hg : in_grid 22 80 y x) :
    ((level_init 22 80 l).tile y x).type ≠ T_UPSTAIR
      ∧ ((level_init 22 80 l).tile y x).type ≠ T_DOWNSTAIR := by
  unfold level_init
  simp only [if_pos hg]
  decide

/-- The level `on_downstair_level` has no up-stair on the 22x80 grid. -/
theorem on_downstair_level_no_upstair (y x : Int) (hg : in_grid 22 80 y x) :
    (on_downstair_level.tile y x).type ≠ T_UPSTAIR := by
  unfold on_downstair_level sample_level
  rw [set_type_tile]
  split_ifs
  · simp
  · rw [set_creature_tile]
    split_ifs
    exact (level_init_no_stair block_level y x hg).1

/-- The level `on_upstair_level` has no down-stair on the 22x80 grid. -/
theorem on_upstair_level_no_downstair (y x : Int) (hg : in_grid 22 80 y x) :
    (on_upstair_level.tile y x).type ≠ T_DOWNSTAIR := by
  unfold on_upstair_level sample_level
  rw [set_type_tile]
  split_ifs
  · simp
  · rw [set_creature_tile]
    split_ifs
    exact (level_init_no_stair block_level y x hg).2

/-! ## Lemmas on world_init -/

theorem for_loop_one_three {σ : Type} (body : Int → σ → σ) (s : σ) :
    for_loop 1 3 body s = body 2 (body 1 s) := rfl

theorem world_add_levelsz (w : world) (l : level) : (world_add w l).levelsz = w.levelsz := by
  unfold world_add
  cases for_search 0 w.levelsz (fun i => if (w.levels i).isNone then some i else none) <;> rfl

/-- A slot that holds a level is not written by `world_add`. -/
theorem world_add_levels_of_some (w : world) (l : level) (j : Int) (l0 : level)
    (h : w.levels j = some l0) : (world_add w l).levels j = some l0 := by
  unfold world_add
  cases hs : for_search 0 w.levelsz (fun i => if (w.levels i).isNone then some i else none) with
  | none => exact h
  | some i =>
    obtain ⟨k, _, _, hk, _⟩ := search_from_some _ _ _ _ hs
    by_cases hn : (w.levels k).isNone = true
    · rw [if_pos hn] at hk
      simp only [Option.some.injEq] at hk
      subst hk
      have hjk : j ≠ k := by
        rintro rfl
        rw [h] at hn
        cases hn
      simp only [world.set_level, if_neg hjk]
      exact h
    · rw [if_neg hn] at hk
      cases hk

/-- The levels that `world_init` leaves in the slots 1 and 2, in terms of the levels
built by the two iterations of its loop. -/
theorem world_init_levels (MAXROWS MAXCOLS : Nat) (level_load : level → level)
    (cave_gen : level → List Int → level × List Int) (draws : List Int)
    (l1 l2 : level) (d1 d2 : List Int)
    (h1 : world_init_level MAXROWS MAXCOLS cave_gen 3 1 draws = some (l1, d1))
    (h2 : world_init_level MAXROWS MAXCOLS cave_gen 3 2 d1 = some (l2, d2)) :
    ∃ w : world, world_init MAXROWS MAXCOLS level_load cave_gen draws = some (w, d2)
      ∧ w.levels 1 = some l1 ∧ w.levels 2 = some l2 := by
  unfold world_init
  simp only [world.set_level]
  rw [for_loop_one_three]
  simp only [h1, world_add_levelsz, world.set_level, h2]
  refine ⟨_, rfl, ?_, ?_⟩
  · apply world_add_levels_of_some
    have : ¬ ((1 : Int) = 2) := by decide
    simp only [this, if_false]
    apply world_add_levels_of_some
    simp
  · apply world_add_levels_of_some
    simp

/-- The level that `level_init` leaves has no `T_WALL` tile when the memory it was given
has none outside the grid, so `level_refine` leaves it as it is. -/
theorem level_refine_level_init (MAXROWS MAXCOLS : Nat) :
    level_refine MAXROWS MAXCOLS (level_init MAXROWS MAXCOLS calloc_level)
      = level_init MAXROWS MAXCOLS calloc_level := by
  apply level_refine_no_wall
  intro y x
  unfold level_init calloc_level
  simp only
  split_ifs <;> decide

/-! ## Lemmas on creature_move -/

theorem tile_is_empty_creature (t : tile) (h : tile_is_empty t = true) : t.creature = none := by
  unfold tile_is_empty at h
  split_ifs at h with hc
  exact hc.2.symm

/-- The result of `creature_move` when it returns 0: none of the four rejection tests
fired, and the store and the level are the ones built by the four assignments. -/
theorem creature_move_accepted (MAXROWS MAXCOLS : Nat) (c : creature_ptr) (m : creatures)
    (l : level) (row col : Int)
    (hret : (creature_move MAXROWS MAXCOLS c m l row col).1 = 0) :
    tile_is_empty (l.tile ((m c).y + row) ((m c).x + col)) = true
      ∧ (creature_move MAXROWS MAXCOLS c m l row col).2.1
          = (m.set_y c ((m c).y + row)).set_x c ((m c).x + col)
      ∧ (creature_move MAXROWS MAXCOLS c m l row col).2.2
          = (l.set_creature (m c).y (m c).x none).set_creature
              ((m c).y + row) ((m c).x + col) (some c) := by
  unfold creature_move at hret ⊢
  by_cases h1 : (m c).y + row < 0 ∨ (m c).y + row ≥ (MAXROWS : Int)
  · simp [h1] at hret
  by_cases h2 : (m c).x + col < 0 ∨ (m c).x + col ≥ (MAXCOLS : Int)
  · simp [h1, h2] at hret
  by_cases h3 : tile_is_wall (l.tile ((m c).y + row) ((m c).x + col)) = true
  · simp [h1, h2, h3] at hret
  by_cases h4 : tile_is_empty (l.tile ((m c).y + row) ((m c).x + col)) = false
  · simp [h1, h2, h3, h4] at hret
  have h5 : tile_is_empty (l.tile ((m c).y + row) ((m c).x + col)) = true := by
    simpa using h4
  refine ⟨h5, ?_, ?_⟩
  · funext p
    simp [h1, h2, h3, h5, creatures.set_x, creatures.set_y]
  · simp [h1, h2, h3, h5, creatures.set_x, creatures.set_y]

/-- The result of `creature_move` when it returns -1: nothing was written. -/
theorem creature_move_rejected (MAXROWS MAXCOLS : Nat) (c : creature_ptr) (m : creatures)
    (l : level) (row col : Int)
    (hret : (creature_move MAXROWS MAXCOLS c m l row col).1 = -1) :
    (creature_move MAXROWS MAXCOLS c m l row col).2.1 = m
      ∧ (creature_move MAXROWS MAXCOLS c m l row col).2.2 = l := by
  unfold creature_move at hret ⊢
  split_ifs at hret ⊢
  all_goals exact ⟨rfl, rfl⟩

/-- When the destination is in the grid, not a wall and empty, `creature_move` returns
0. -/
theorem creature_move_returns_zero (MAXROWS MAXCOLS : Nat) (c : creature_ptr) (m : creatures)
    (l : level) (row col : Int)
    (hg : in_grid MAXROWS MAXCOLS ((m c).y + row) ((m c).x + col))
    (hw : tile_is_wall (l.tile ((m c).y + row) ((m c).x + col)) = false)
    (he : tile_is_empty (l.tile ((m c).y + row) ((m c).x + col)) = true) :
    (creature_move MAXROWS MAXCOLS c m l row col).1 = 0 := by
  unfold in_grid at hg
  unfold creature_move
  have h1 : ¬ ((m c).y + row < 0 ∨ (m c).y + row ≥ (MAXROWS : Int)) := by omega
  have h2 : ¬ ((m c).x + col < 0 ∨ (m c).x + col ≥ (MAXCOLS : Int)) := by omega
  simp [h1, h2, hw, he]

/-- The value returned by `creature_move` depends on the level only through the two
predicates on the destination tile. -/
theorem creature_move_ret_congr (MAXROWS MAXCOLS : Nat) (c : creature_ptr) (m : creatures)
    (l1 l2 : level) (row col : Int)
    (hw : tile_is_wall (l1.tile ((m c).y + row) ((m c).x + col))
      = tile_is_wall (l2.tile ((m c).y + row) ((m c).x + col)))
    (he : tile_is_empty (l1.tile ((m c).y + row) ((m c).x + col))
      = tile_is_empty (l2.tile ((m c).y + row) ((m c).x + col))) :
    (creature_move MAXROWS MAXCOLS c m l1 row col).1
      = (creature_move MAXROWS MAXCOLS c m l2 row col).1 := by
  unfold creature_move
  rw [hw, he]
  split_ifs <;> rfl

/-- A successful move followed by the opposite move, from a tile of an empty type that
holds the mover: the second move is accepted and gives back the store and the level. -/
theorem creature_move_there_and_back (MAXROWS MAXCOLS : Nat) (c : creature_ptr)
    (m : creatures) (l : level) (dr dc : Int)
    (hin : in_grid MAXROWS MAXCOLS (m c).y (m c).x)
    (hty : (l.tile (m c).y (m c).x).type = T_EMPTY ∨ (l.tile (m c).y (m c).x).type = T_UPSTAIR
      ∨ (l.tile (m c).y (m c).x).type = T_DOWNSTAIR)
    (hocc : (l.tile (m c).y (m c).x).creature = some c)
    (hret : (creature_move MAXROWS MAXCOLS c m l dr dc).1 = 0) :
    (creature_move MAXROWS MAXCOLS c (creature_move MAXROWS MAXCOLS c m l dr dc).2.1
        (creature_move MAXROWS MAXCOLS c m l dr dc).2.2 (-dr) (-dc)).1 = 0
      ∧ (creature_move MAXROWS MAXCOLS c (creature_move MAXROWS MAXCOLS c m l dr dc).2.1
        (creature_move MAXROWS MAXCOLS c m l dr dc).2.2 (-dr) (-dc)).2.1 = m
      ∧ (creature_move MAXROWS MAXCOLS c (creature_move MAXROWS MAXCOLS c m l dr dc).2.1
        (creature_move MAXROWS MAXCOLS c m l dr dc).2.2 (-dr) (-dc)).2.2 = l := by
  obtain ⟨hemp, hm, hl⟩ := creature_move_accepted MAXROWS MAXCOLS c m l dr dc hret
  have hdest := tile_is_empty_creature _ hemp
  have hne : ¬ ((m c).y + dr = (m c).y ∧ (m c).x + dc = (m c).x) := by
    rintro ⟨e1, e2⟩
    rw [e1, e2, hocc] at hdest
    cases hdest
  have hz : ¬ (dr = 0 ∧ dc = 0) := fun h => hne (by omega)
  rw [hm, hl]
  have ey : (((m.set_y c ((m c).y + dr)).set_x c ((m c).x + dc)) c).y + -dr = (m c).y := by
    simp [creatures.set_x, creatures.set_y]
  have ex : (((m.set_y c ((m c).y + dr)).set_x c ((m c).x + dc)) c).x + -dc = (m c).x := by
    simp [creatures.set_x, creatures.set_y]
  have ht : ((l.set_creature (m c).y (m c).x none).set_creature
      ((m c).y + dr) ((m c).x + dc) (some c)).tile (m c).y (m c).x
        = { l.tile (m c).y (m c).x with creature := none } := by
    simp [set_creature_tile, hz]
  have hret2 := creature_move_returns_zero MAXROWS MAXCOLS c
    ((m.set_y c ((m c).y + dr)).set_x c ((m c).x + dc))
    ((l.set_creature (m c).y (m c).x none).set_creature
      ((m c).y + dr) ((m c).x + dc) (some c)) (-dr) (-dc)
    (by rw [ey, ex]; exact hin)
    (by rw [ey, ex, ht]; rcases hty with h | h | h <;> simp [tile_is_wall, h])
    (by rw [ey, ex, ht]; rcases hty with h | h | h <;> simp [tile_is_empty, h])
  obtain ⟨_, hm2, hl2⟩ := creature_move_accepted MAXROWS MAXCOLS c _ _ (-dr) (-dc) hret2
  refine ⟨hret2, ?_, ?_⟩
  · rw [hm2, ey, ex]
    funext p
    by_cases hp : p = c
    · subst hp
      simp [creatures.set_x, creatures.set_y]
    · simp [creatures.set_x, creatures.set_y, hp]
  · rw [hl2, ey, ex]
    have hcy : (((m.set_y c ((m c).y + dr)).set_x c ((m c).x + dc)) c).y = (m c).y + dr := by
      simp [creatures.set_x, creatures.set_y]
    have hcx : (((m.set_y c ((m c).y + dr)).set_x c ((m c).x + dc)) c).x = (m c).x + dc := by
      simp [creatures.set_x, creatures.set_y]
    rw [hcy, hcx]
    cases l with
    | mk lty ltile =>
      simp only [level.set_creature, level.mk.injEq, true_and]
      funext y x
      simp only at hocc hdest
      by_cases hs : y = (m c).y ∧ x = (m c).x
      · obtain ⟨rfl, rfl⟩ := hs
        simp [hz, ← hocc]
      · by_cases hd : y = (m c).y + dr ∧ x = (m c).x + dc
        · obtain ⟨rfl, rfl⟩ := hd
          simp [hs, ← hdest]
          intro h1 h2
          exact absurd ⟨h1, h2⟩ hz
        · simp [hs, hd]

/-- The value returned by `creature_move` is 0 or -1. -/
theorem creature_move_ret_cases (MAXROWS MAXCOLS : Nat) (c : creature_ptr) (m : creatures)
    (l : level) (row col : Int) :
    (creature_move MAXROWS MAXCOLS c m l row col).1 = 0
      ∨ (creature_move MAXROWS MAXCOLS c m l row col).1 = -1 := by
  unfold creature_move
  split_ifs
  all_goals first | exact Or.inr rfl | exact Or.inl rfl

/-- A move keeps the state consistent. -/
theorem creature_move_consistent (MAXROWS MAXCOLS : Nat) (c : creature_ptr) (m : creatures)
    (l : level) (row col : Int) (hc : consistent MAXROWS MAXCOLS m l) :
    consistent MAXROWS MAXCOLS (creature_move MAXROWS MAXCOLS c m l row col).2.1
      (creature_move MAXROWS MAXCOLS c m l row col).2.2 := by
  rcases creature_move_ret_cases MAXROWS MAXCOLS c m l row col with hret | hret
  · obtain ⟨_, hm, hl⟩ := creature_move_accepted MAXROWS MAXCOLS c m l row col hret
    rw [hm, hl]
    intro y x p hg hp
    by_cases hd : y = (m c).y + row ∧ x = (m c).x + col
    · rw [set_creature_tile, if_pos hd] at hp
      simp only [Option.some.injEq] at hp
      subst hp
      simp [creatures.set_x, creatures.set_y, hd.1, hd.2]
    · rw [set_creature_tile, if_neg hd, set_creature_tile] at hp
      by_cases hs : y = (m c).y ∧ x = (m c).x
      · rw [if_pos hs] at hp
        cases hp
      · rw [if_neg hs] at hp
        have hpos := hc y x p hg hp
        have hpc : p ≠ c := by
          rintro rfl
          exact hs ⟨hpos.1.symm, hpos.2.symm⟩
        simpa [creatures.set_x, creatures.set_y, hpc] using hpos
  · obtain ⟨hm, hl⟩ := creature_move_rejected MAXROWS MAXCOLS c m l row col hret
    rw [hm, hl]
    exact hc

/-- The sample state, the creature at address 1 on tile `(5, 5)`, is consistent. -/
theorem sample_consistent : consistent 22 80 sample_creatures sample_level := by
  intro y x p _ hp
  unfold sample_level at hp
  rw [set_creature_tile] at hp
  by_cases h : y = 5 ∧ x = 5
  · rw [if_pos h] at hp
    simp only [Option.some.injEq] at hp
    subst hp
    obtain ⟨rfl, rfl⟩ := h
    decide
  · rw [if_neg h] at hp
    unfold level_init block_level at hp
    simp only at hp
    split_ifs at hp

/-! ## Theorems -/

/-- C1: for every grid and every interior cell whose input type is `T_WALL`, the type
of the cell after `level_refine` is `classify` of the 8-bit neighbour mask computed from
the input grid, whatever was rewritten earlier in the same pass. -/
theorem level_refine_classifies (MAXROWS MAXCOLS : Nat) (l : level) (y x : Int)
    (hy1 : 1 ≤ y) (hy2 : y ≤ (MAXROWS : Int) - 2) (hx1 : 1 ≤ x) (hx2 : x ≤ (MAXCOLS : Int) - 2)
    (hw : (l.tile y x).type = T_WALL) :
    ((level_refine MAXROWS MAXCOLS l).tile y x).type = classify (neighbour_mask l y x)
      ∧ neighbour_mask l y x < 256 :=
  ⟨level_refine_wall_cell MAXROWS MAXCOLS l y x ⟨hy1, hy2, hx1, hx2⟩ hw,
    neighbour_mask_lt l y x⟩

/-- The centre of the wall block of `block_level`, on the 22x80 grid. -/
theorem level_refine_classifies_witness :
    (block_level.tile 10 10).type = T_WALL
      ∧ ((level_refine 22 80 block_level).tile 10 10).type
          = classify (neighbour_mask block_level 10 10)
      ∧ neighbour_mask block_level 10 10 < 256 :=
  ⟨by decide,
    level_refine_classifies 22 80 block_level 10 10 (by decide) (by decide) (by decide)
      (by decide) (by decide)⟩

/-- C2: for a creature stored inside the grid, `creature_move` returns -1 exactly when
the destination is outside the grid, or its tile satisfies `tile_is_wall`, or its tile
does not satisfy `tile_is_empty`; in every other case it returns 0. -/
theorem creature_move_blocked_iff (MAXROWS MAXCOLS : Nat) (c : creature_ptr) (m : creatures)
    (l : level) (row col : Int) (_hin : in_grid MAXROWS MAXCOLS (m c).y (m c).x) :
    ((creature_move MAXROWS MAXCOLS c m l row col).1 = -1
        ↔ (¬ in_grid MAXROWS MAXCOLS ((m c).y + row) ((m c).x + col)
            ∨ tile_is_wall (l.tile ((m c).y + row) ((m c).x + col)) = true
            ∨ tile_is_empty (l.tile ((m c).y + row) ((m c).x + col)) = false))
      ∧ (¬ (¬ in_grid MAXROWS MAXCOLS ((m c).y + row) ((m c).x + col)
            ∨ tile_is_wall (l.tile ((m c).y + row) ((m c).x + col)) = true
            ∨ tile_is_empty (l.tile ((m c).y + row) ((m c).x + col)) = false)
          → (creature_move MAXROWS MAXCOLS c m l row col).1 = 0) := by
  unfold creature_move in_grid
  by_cases h1 : (m c).y + row < 0 ∨ (m c).y + row ≥ (MAXROWS : Int)
  · have : ¬ (0 ≤ (m c).y + row ∧ (m c).y + row < (MAXROWS : Int)
        ∧ 0 ≤ (m c).x + col ∧ (m c).x + col < (MAXCOLS : Int)) := by omega
    simp [h1, this]
  by_cases h2 : (m c).x + col < 0 ∨ (m c).x + col ≥ (MAXCOLS : Int)
  · have : ¬ (0 ≤ (m c).y + row ∧ (m c).y + row < (MAXROWS : Int)
        ∧ 0 ≤ (m c).x + col ∧ (m c).x + col < (MAXCOLS : Int)) := by omega
    simp [h1, h2, this]
  have hg : 0 ≤ (m c).y + row ∧ (m c).y + row < (MAXROWS : Int)
      ∧ 0 ≤ (m c).x + col ∧ (m c).x + col < (MAXCOLS : Int) := by omega
  by_cases h3 : tile_is_wall (l.tile ((m c).y + row) ((m c).x + col)) = true
  · simp [h1, h2, h3]
  by_cases h4 : tile_is_empty (l.tile ((m c).y + row) ((m c).x + col)) = false
  · simp [h1, h2, h3, h4]
  simp [h1, h2, h3, h4, hg]

/-- The creature at address 1, at `(5, 5)`, asked to move six columns to the left. -/
theorem creature_move_blocked_iff_witness :
    in_grid 22 80 (sample_creatures 1).y (sample_creatures 1).x
      ∧ ((creature_move 22 80 1 sample_creatures sample_level 0 (-6)).1 = -1
        ↔ (¬ in_grid 22 80 ((sample_creatures 1).y + 0) ((sample_creatures 1).x + (-6))
            ∨ tile_is_wall (sample_level.tile ((sample_creatures 1).y + 0)
                ((sample_creatures 1).x + (-6))) = true
            ∨ tile_is_empty (sample_level.tile ((sample_creatures 1).y + 0)
                ((sample_creatures 1).x + (-6))) = false)) :=
  ⟨by decide, (creature_move_blocked_iff 22 80 1 sample_creatures sample_level 0 (-6)
    (by decide)).1⟩

/-- C3: when `creature_move` returns 0 for a creature `c` standing inside the grid on
the tile that holds it, the source tile has no occupant, the destination tile holds `c`,
the stored coordinates are the old ones plus the delta, every other tile keeps its
occupant and every tile keeps its type; the destination differs from the source and was
unoccupied, so exactly one tile loses its occupant and exactly one gains the mover. -/
theorem creature_move_success (MAXROWS MAXCOLS : Nat) (c : creature_ptr) (m : creatures)
    (l : level) (row col : Int) (_hin : in_grid MAXROWS MAXCOLS (m c).y (m c).x)
    (hocc : (l.tile (m c).y (m c).x).creature = some c)
    (hret : (creature_move MAXROWS MAXCOLS c m l row col).1 = 0) :
    (((creature_move MAXROWS MAXCOLS c m l row col).2.2).tile (m c).y (m c).x).creature = none
      ∧ (((creature_move MAXROWS MAXCOLS c m l row col).2.2).tile
          ((m c).y + row) ((m c).x + col)).creature = some c
      ∧ ((creature_move MAXROWS MAXCOLS c m l row col).2.1 c).y = (m c).y + row
      ∧ ((creature_move MAXROWS MAXCOLS c m l row col).2.1 c).x = (m c).x + col
      ∧ (∀ y x : Int, ¬ (y = (m c).y ∧ x = (m c).x)
          → ¬ (y = (m c).y + row ∧ x = (m c).x + col)
          → (((creature_move MAXROWS MAXCOLS c m l row col).2.2).tile y x).creature
              = (l.tile y x).creature)
      ∧ (∀ y x : Int, (((creature_move MAXROWS MAXCOLS c m l row col).2.2).tile y x).type
          = (l.tile y x).type)
      ∧ ¬ ((m c).y + row = (m c).y ∧ (m c).x + col = (m c).x)
      ∧ (l.tile ((m c).y + row) ((m c).x + col)).creature = none := by
  obtain ⟨hemp, hm, hl⟩ := creature_move_accepted MAXROWS MAXCOLS c m l row col hret
  have hdest := tile_is_empty_creature _ hemp
  have hne : ¬ ((m c).y + row = (m c).y ∧ (m c).x + col = (m c).x) := by
    rintro ⟨e1, e2⟩
    rw [e1, e2, hocc] at hdest
    cases hdest
  have hne' : ¬ ((m c).y = (m c).y + row ∧ (m c).x = (m c).x + col) :=
    fun h => hne ⟨h.1.symm, h.2.symm⟩
  have hz : ¬ (row = 0 ∧ col = 0) := fun h => hne (by omega)
  rw [hm, hl]
  refine ⟨?_, ?_, ?_, ?_, ?_, ?_, hne, hdest⟩
  · simp [set_creature_tile, hz]
  · simp [set_creature_tile]
  · simp [creatures.set_x, creatures.set_y]
  · simp [creatures.set_x, creatures.set_y]
  · intro y x h1 h2
    simp [set_creature_tile, h1, h2]
  · intro y x
    simp only [set_creature_tile]
    split_ifs <;> rfl

/-- The creature at address 1 moves one column to the right on the empty level. -/
theorem creature_move_success_witness :
    in_grid 22 80 (sample_creatures 1).y (sample_creatures 1).x
      ∧ (sample_level.tile (sample_creatures 1).y (sample_creatures 1).x).creature = some 1
      ∧ (creature_move 22 80 1 sample_creatures sample_level 0 1).1 = 0
      ∧ (((creature_move 22 80 1 sample_creatures sample_level 0 1).2.2).tile
          ((sample_creatures 1).y + 0) ((sample_creatures 1).x + 1)).creature = some 1 :=
  ⟨by decide, by decide, by decide,
    (creature_move_success 22 80 1 sample_creatures sample_level 0 1 (by decide) (by decide)
      (by decide)).2.1⟩

/-- C4: whenever `creature_move` returns -1, the creature store (position, race, speed
and action points of every creature) and the level (type and occupant of every tile) are
exactly what they were before the call. -/
theorem creature_move_rejected_unchanged (MAXROWS MAXCOLS : Nat) (c : creature_ptr)
    (m : creatures) (l : level) (row col : Int)
    (hret : (creature_move MAXROWS MAXCOLS c m l row col).1 = -1) :
    (creature_move MAXROWS MAXCOLS c m l row col).2.1 = m
      ∧ (creature_move MAXROWS MAXCOLS c m l row col).2.2 = l :=
  creature_move_rejected MAXROWS MAXCOLS c m l row col hret

/-- The creature at address 1, at `(5, 5)`, asked to move onto the wall at `(10, 10)`. -/
theorem creature_move_rejected_unchanged_witness :
    (creature_move 22 80 1 sample_creatures block_level 5 5).1 = -1
      ∧ (creature_move 22 80 1 sample_creatures block_level 5 5).2.1 = sample_creatures
      ∧ (creature_move 22 80 1 sample_creatures block_level 5 5).2.2 = block_level :=
  ⟨by decide,
    creature_move_rejected_unchanged 22 80 1 sample_creatures block_level 5 5 (by decide)⟩

/-- C5: `tile_is_empty` and `tile_is_wall` are never both true of a tile, and an
unoccupied tile of each of the fifteen types satisfies exactly one of them:
`tile_is_empty` exactly for `T_EMPTY`, `T_UPSTAIR`, `T_DOWNSTAIR`, `tile_is_wall`
exactly for `T_WALL` and the eleven glyphs. -/
theorem tile_is_empty_xor_tile_is_wall :
    (∀ t : tile, ¬ (tile_is_empty t = true ∧ tile_is_wall t = true))
      ∧ (∀ ty : tile_type,
          (tile_is_empty { type := ty, creature := none } = true
            ↔ ty = T_EMPTY ∨ ty = T_UPSTAIR ∨ ty = T_DOWNSTAIR)
          ∧ (tile_is_wall { type := ty, creature := none } = true
            ↔ ty = T_WALL ∨ ty = T_HLINE ∨ ty = T_VLINE ∨ ty = T_BTEE ∨ ty = T_TTEE
              ∨ ty = T_LTEE ∨ ty = T_RTEE ∨ ty = T_CROSS ∨ ty = T_LLCORNER
              ∨ ty = T_LRCORNER ∨ ty = T_ULCORNER ∨ ty = T_URCORNER)
          ∧ ((tile_is_empty { type := ty, creature := none } = true
                ∧ tile_is_wall { type := ty, creature := none } = false)
              ∨ (tile_is_empty { type := ty, creature := none } = false
                ∧ tile_is_wall { type := ty, creature := none } = true))) := by
  refine ⟨?_, ?_⟩
  · rintro ⟨ty, c⟩
    cases ty <;> simp [tile_is_empty, tile_is_wall]
  · intro ty
    cases ty <;> simp [tile_is_empty, tile_is_wall]

/-- C6: whenever `level_add_stairs` terminates on values that the random source draws
within its bounds, the accepted coordinates satisfy `|(upy+upx) - (doy+dox)| ≥ 50`, both
tiles satisfied `tile_is_empty` in the input level, tile `(upy, upx)` is `T_UPSTAIR` if
`upstair` is set and tile `(doy, dox)` is `T_DOWNSTAIR` if `downstair` is set, and no
other tile type, no occupant and not the origin of the level has changed. -/
theorem level_add_stairs_placement (MAXROWS MAXCOLS : Nat) (l : level)
    (upstair downstair : Bool) (draws : List Int) (l' : level) (rest : List Int)
    (hr : stair_draws_in_range MAXROWS MAXCOLS draws)
    (h : level_add_stairs l upstair downstair draws = some (l', rest)) :
    ∃ upy upx doy dox : Int,
      in_grid MAXROWS MAXCOLS upy upx ∧ in_grid MAXROWS MAXCOLS doy dox
        ∧ |(upy + upx) - (doy + dox)| ≥ 50
        ∧ tile_is_empty (l.tile upy upx) = true ∧ tile_is_empty (l.tile doy dox) = true
        ∧ (upstair = true → (l'.tile upy upx).type = T_UPSTAIR)
        ∧ (downstair = true → (l'.tile doy dox).type = T_DOWNSTAIR)
        ∧ (∀ y x : Int, ¬ (upstair = true ∧ y = upy ∧ x = upx)
            → ¬ (downstair = true ∧ y = doy ∧ x = dox)
            → (l'.tile y x).type = (l.tile y x).type)
        ∧ (∀ y x : Int, (l'.tile y x).creature = (l.tile y x).creature)
        ∧ l'.type = l.type := by
  obtain ⟨upy, upx, doy, dox, hup, hdo, habs, he1, he2, hl⟩ :=
    level_add_stairs_accepts MAXROWS MAXCOLS l upstair downstair draws l' rest hr h
  have hne : ¬ (upy = doy ∧ upx = dox) := by
    rintro ⟨rfl, rfl⟩
    simp at habs
  refine ⟨upy, upx, doy, dox, hup, hdo, habs, he1, he2, ?_, ?_, ?_, ?_, ?_⟩
  · intro hu
    rw [hl]
    cases downstair <;> simp [hu, set_type_tile, hne]
  · intro hd
    rw [hl]
    cases upstair <;> simp [hd, set_type_tile]
  · intro y x h1 h2
    rw [hl]
    cases upstair <;> cases downstair <;>
      simp only [Bool.false_eq_true, if_false, if_true, set_type_tile] <;>
      (try split_ifs) <;> first | rfl | (exfalso; simp_all)
  · intro y x
    rw [hl]
    cases upstair <;> cases downstair <;> simp [set_type_tile] <;> split_ifs <;> rfl
  · rw [hl]
    cases upstair <;> cases downstair <;> rfl

/-- A run on the empty 22x80 level whose first iteration is rejected (sums 10 and 11) and
whose second iteration stamps both stairs. -/
theorem level_add_stairs_placement_witness :
    ∃ upy upx doy dox : Int,
      in_grid 22 80 upy upx ∧ in_grid 22 80 doy dox
        ∧ |(upy + upx) - (doy + dox)| ≥ 50
        ∧ tile_is_empty ((level_init 22 80 block_level).tile upy upx) = true
        ∧ tile_is_empty ((level_init 22 80 block_level).tile doy dox) = true
        ∧ (true = true →
            ((((level_init 22 80 block_level).set_type 0 0 T_UPSTAIR).set_type
              21 79 T_DOWNSTAIR).tile upy upx).type = T_UPSTAIR)
        ∧ (true = true →
            ((((level_init 22 80 block_level).set_type 0 0 T_UPSTAIR).set_type
              21 79 T_DOWNSTAIR).tile doy dox).type = T_DOWNSTAIR)
        ∧ (∀ y x : Int, ¬ (true = true ∧ y = upy ∧ x = upx)
            → ¬ (true = true ∧ y = doy ∧ x = dox)
            → ((((level_init 22 80 block_level).set_type 0 0 T_UPSTAIR).set_type
                21 79 T_DOWNSTAIR).tile y x).type = ((level_init 22 80 block_level).tile y x).type)
        ∧ (∀ y x : Int,
            ((((level_init 22 80 block_level).set_type 0 0 T_UPSTAIR).set_type
                21 79 T_DOWNSTAIR).tile y x).creature
              = ((level_init 22 80 block_level).tile y x).creature)
        ∧ (((level_init 22 80 block_level).set_type 0 0 T_UPSTAIR).set_type
              21 79 T_DOWNSTAIR).type = (level_init 22 80 block_level).type :=
  level_add_stairs_placement 22 80 (level_init 22 80 block_level) true true
    [5, 5, 5, 6, 0, 0, 21, 79]
    (((level_init 22 80 block_level).set_type 0 0 T_UPSTAIR).set_type 21 79 T_DOWNSTAIR) []
    (by simp [stair_draws_in_range, in_grid]) (by rfl)

/-- C7: in a world with `levelsz ≥ 1` and `0 ≤ current < levelsz`, `world_next` sets
`current` to `min (current + 1) (levelsz - 1)` and `world_prev` to `max (current - 1) 0`;
both keep `levelsz` and the slots and return the level at the resulting index; `current`
stays in `[0, levelsz)`; `world_next` at the last level and `world_prev` at level 0
change nothing and return what `world_current` returned before. -/
theorem world_next_prev_clamped (w : world) (hsz : 1 ≤ w.levelsz) (h0 : 0 ≤ w.current)
    (h1 : w.current < w.levelsz) :
    (world_next w).1.current = min (w.current + 1) (w.levelsz - 1)
      ∧ (world_prev w).1.current = max (w.current - 1) 0
      ∧ (world_next w).1.levelsz = w.levelsz ∧ (world_next w).1.levels = w.levels
      ∧ (world_prev w).1.levelsz = w.levelsz ∧ (world_prev w).1.levels = w.levels
      ∧ (world_next w).2 = w.levels (world_next w).1.current
      ∧ (world_prev w).2 = w.levels (world_prev w).1.current
      ∧ (0 ≤ (world_next w).1.current ∧ (world_next w).1.current < (world_next w).1.levelsz)
      ∧ (0 ≤ (world_prev w).1.current ∧ (world_prev w).1.current < (world_prev w).1.levelsz)
      ∧ (w.current = w.levelsz - 1 → world_next w = (w, world_current w))
      ∧ (w.current = 0 → world_prev w = (w, world_current w)) := by
  have en : world_next w = if w.current + 1 < w.levelsz
      then ({ w with current := w.current + 1 }, w.levels (w.current + 1))
      else (w, w.levels w.current) := by
    unfold world_next world_current; split_ifs <;> rfl
  have ep : world_prev w = if w.current - 1 ≥ 0
      then ({ w with current := w.current - 1 }, w.levels (w.current - 1))
      else (w, w.levels w.current) := by
    unfold world_prev world_current; split_ifs <;> rfl
  rw [en, ep]
  unfold world_current
  by_cases hn : w.current + 1 < w.levelsz <;> by_cases hp : w.current - 1 ≥ 0
  all_goals
    first | rw [if_pos hn] | rw [if_neg hn]
    first | rw [if_pos hp] | rw [if_neg hp]
    dsimp only
    refine ⟨?_, ?_, rfl, rfl, rfl, rfl, rfl, rfl, ?_, ?_, ?_, ?_⟩ <;>
      first
        | omega
        | (intro _; rfl)

/-- The world of three levels with the cursor on the middle one. -/
theorem world_next_prev_clamped_witness :
    (world_next sample_world).1.current = min (sample_world.current + 1) (sample_world.levelsz - 1)
      ∧ (world_prev sample_world).1.current = max (sample_world.current - 1) 0 :=
  ⟨(world_next_prev_clamped sample_world (by decide) (by decide) (by decide)).1,
    (world_next_prev_clamped sample_world (by decide) (by decide) (by decide)).2.1⟩

/-- C8: a creature `c` standing inside the grid on a `T_DOWNSTAIR` tile of `f`, with a
`T_UPSTAIR` tile somewhere on the other level `t`: `creature_climb_downstair` returns 0,
the stored position of `c` becomes the first `T_UPSTAIR` tile of `t` in row-major order,
that tile holds `c`, and the tile of `f` at the old position has no occupant.  The same
for `creature_climb_upstair` from a `T_UPSTAIR` tile to the first `T_DOWNSTAIR` tile. -/
theorem creature_climb_arrives (MAXROWS MAXCOLS : Nat) (c : creature_ptr) (m : creatures)
    (f t : level) (_hin : in_grid MAXROWS MAXCOLS (m c).y (m c).x) :
    ((f.tile (m c).y (m c).x).type = T_DOWNSTAIR
        → (∃ y x : Int, in_grid MAXROWS MAXCOLS y x ∧ (t.tile y x).type = T_UPSTAIR)
        → (creature_climb_downstair MAXROWS MAXCOLS c m f t).1 = 0
          ∧ first_of_type MAXROWS MAXCOLS t T_UPSTAIR
              ((creature_climb_downstair MAXROWS MAXCOLS c m f t).2.1 c).y
              ((creature_climb_downstair MAXROWS MAXCOLS c m f t).2.1 c).x
          ∧ (((creature_climb_downstair MAXROWS MAXCOLS c m f t).2.2.2).tile
              ((creature_climb_downstair MAXROWS MAXCOLS c m f t).2.1 c).y
              ((creature_climb_downstair MAXROWS MAXCOLS c m f t).2.1 c).x).type = T_UPSTAIR
          ∧ (((creature_climb_downstair MAXROWS MAXCOLS c m f t).2.2.2).tile
              ((creature_climb_downstair MAXROWS MAXCOLS c m f t).2.1 c).y
              ((creature_climb_downstair MAXROWS MAXCOLS c m f t).2.1 c).x).creature = some c
          ∧ (((creature_climb_downstair MAXROWS MAXCOLS c m f t).2.2.1).tile
              (m c).y (m c).x).creature = none)
      ∧ ((f.tile (m c).y (m c).x).type = T_UPSTAIR
        → (∃ y x : Int, in_grid MAXROWS MAXCOLS y x ∧ (t.tile y x).type = T_DOWNSTAIR)
        → (creature_climb_upstair MAXROWS MAXCOLS c m f t).1 = 0
          ∧ first_of_type MAXROWS MAXCOLS t T_DOWNSTAIR
              ((creature_climb_upstair MAXROWS MAXCOLS c m f t).2.1 c).y
              ((creature_climb_upstair MAXROWS MAXCOLS c m f t).2.1 c).x
          ∧ (((creature_climb_upstair MAXROWS MAXCOLS c m f t).2.2.2).tile
              ((creature_climb_upstair MAXROWS MAXCOLS c m f t).2.1 c).y
              ((creature_climb_upstair MAXROWS MAXCOLS c m f t).2.1 c).x).type = T_DOWNSTAIR
          ∧ (((creature_climb_upstair MAXROWS MAXCOLS c m f t).2.2.2).tile
              ((creature_climb_upstair MAXROWS MAXCOLS c m f t).2.1 c).y
              ((creature_climb_upstair MAXROWS MAXCOLS c m f t).2.1 c).x).creature = some c
          ∧ (((creature_climb_upstair MAXROWS MAXCOLS c m f t).2.2.1).tile
              (m c).y (m c).x).creature = none) := by
  constructor
  · intro hf hex
    obtain ⟨y0, x0, hfirst, hplace⟩ :=
      creature_place_at_stair_found MAXROWS MAXCOLS c m t true (by simpa using hex)
    simp only [if_true] at hfirst
    unfold creature_climb_downstair
    rw [if_neg (by simp [hf]), hplace]
    refine ⟨rfl, ?_, ?_, ?_, ?_⟩
    · simpa [creatures.set_x, creatures.set_y] using hfirst
    · simpa [creatures.set_x, creatures.set_y, set_creature_tile] using hfirst.2.1
    · simp [creatures.set_x, creatures.set_y, set_creature_tile]
    · simp [set_creature_tile]
  · intro hf hex
    obtain ⟨y0, x0, hfirst, hplace⟩ :=
      creature_place_at_stair_found MAXROWS MAXCOLS c m t false (by simpa using hex)
    simp only [Bool.false_eq_true, if_false] at hfirst
    unfold creature_climb_upstair
    rw [if_neg (by simp [hf]), hplace]
    refine ⟨rfl, ?_, ?_, ?_, ?_⟩
    · simpa [creatures.set_x, creatures.set_y] using hfirst
    · simpa [creatures.set_x, creatures.set_y, set_creature_tile] using hfirst.2.1
    · simp [creatures.set_x, creatures.set_y, set_creature_tile]
    · simp [set_creature_tile]

/-- The creature at address 1 climbs down, and up, to `stairs_level`. -/
theorem creature_climb_arrives_witness :
    ((creature_climb_downstair 22 80 1 sample_creatures on_downstair_level stairs_level).1 = 0
        ∧ first_of_type 22 80 stairs_level T_UPSTAIR
            ((creature_climb_downstair 22 80 1 sample_creatures on_downstair_level
              stairs_level).2.1 1).y
            ((creature_climb_downstair 22 80 1 sample_creatures on_downstair_level
              stairs_level).2.1 1).x)
      ∧ ((creature_climb_upstair 22 80 1 sample_creatures on_upstair_level stairs_level).1 = 0
        ∧ first_of_type 22 80 stairs_level T_DOWNSTAIR
            ((creature_climb_upstair 22 80 1 sample_creatures on_upstair_level
              stairs_level).2.1 1).y
            ((creature_climb_upstair 22 80 1 sample_creatures on_upstair_level
              stairs_level).2.1 1).x) :=
  ⟨⟨((creature_climb_arrives 22 80 1 sample_creatures on_downstair_level stairs_level
        (by decide)).1 (by decide) ⟨3, 4, by decide, by decide⟩).1,
      ((creature_climb_arrives 22 80 1 sample_creatures on_downstair_level stairs_level
        (by decide)).1 (by decide) ⟨3, 4, by decide, by decide⟩).2.1⟩,
    ⟨((creature_climb_arrives 22 80 1 sample_creatures on_upstair_level stairs_level
        (by decide)).2 (by decide) ⟨20, 70, by decide, by decide⟩).1,
      ((creature_climb_arrives 22 80 1 sample_creatures on_upstair_level stairs_level
        (by decide)).2 (by decide) ⟨20, 70, by decide, by decide⟩).2.1⟩⟩

/-- C9, evaluated on the code: in `world_init` (`levelsz = 3`) the level of index 1 is
stamped by `level_add_stairs` with `upstair = true` and `downstair = true`, because the
test `0 == i` is false at every index of a loop that starts at 1; the level of index 2 is
stamped with `false` and `true`.  On the 22x80 grid, with a cave generator that leaves
the level empty and a random source that returns 0, 0, 21, 79 twice, the level in slot
1 of the resulting world has an up-stair at `(0, 0)` and a down-stair at `(21, 79)`. -/
theorem world_init_first_generated_level_gets_both_stairs :
    (∀ (MAXROWS MAXCOLS : Nat) (cave_gen : level → List Int → level × List Int)
        (draws : List Int),
        world_init_level MAXROWS MAXCOLS cave_gen 3 1 draws
          = level_add_stairs
              (level_refine MAXROWS MAXCOLS
                (cave_gen (level_init MAXROWS MAXCOLS calloc_level) draws).1)
              true true (cave_gen (level_init MAXROWS MAXCOLS calloc_level) draws).2)
      ∧ (∀ (MAXROWS MAXCOLS : Nat) (cave_gen : level → List Int → level × List Int)
        (draws : List Int),
        world_init_level MAXROWS MAXCOLS cave_gen 3 2 draws
          = level_add_stairs
              (level_refine MAXROWS MAXCOLS
                (cave_gen (level_init MAXROWS MAXCOLS calloc_level) draws).1)
              false true (cave_gen (level_init MAXROWS MAXCOLS calloc_level) draws).2)
      ∧ ∃ (w : world) (rest : List Int) (l1 : level),
          world_init 22 80 id (fun l d => (l, d)) [0, 0, 21, 79, 0, 0, 21, 79] = some (w, rest)
            ∧ w.levels 1 = some l1
            ∧ (l1.tile 0 0).type = T_UPSTAIR ∧ (l1.tile 21 79).type = T_DOWNSTAIR := by
  refine ⟨fun _ _ _ _ => rfl, fun _ _ _ _ => rfl, ?_⟩
  have h1 : world_init_level 22 80 (fun l d => (l, d)) 3 1 [0, 0, 21, 79, 0, 0, 21, 79]
      = some (((level_init 22 80 calloc_level).set_type 0 0 T_UPSTAIR).set_type
          21 79 T_DOWNSTAIR, [0, 0, 21, 79]) := by
    unfold world_init_level
    simp only [level_refine_level_init]
    rfl
  have h2 : world_init_level 22 80 (fun l d => (l, d)) 3 2 [0, 0, 21, 79]
      = some ((level_init 22 80 calloc_level).set_type 21 79 T_DOWNSTAIR, []) := by
    unfold world_init_level
    simp only [level_refine_level_init]
    rfl
  obtain ⟨w, hw, hw1, _⟩ := world_init_levels 22 80 id _ _ _ _ _ _ h1 h2
  exact ⟨w, [], _, hw, hw1, by decide, by decide⟩

/-- C10, as the claim states it, fails on the block of `block_level`: the grid is empty
except for the 3x3 wall block centred at `(10, 10)`, far from the borders of the 22x80
grid, and after `level_refine` none of the four tiles edge-adjacent to the centre is
`T_HLINE` or `T_VLINE`. -/
theorem block_level_edges_not_lines :
    wall_block 22 80 block_level 10 10
      ∧ interior 22 80 9 9 ∧ interior 22 80 11 11
      ∧ ¬ (((level_refine 22 80 block_level).tile 9 10).type = T_HLINE
            ∨ ((level_refine 22 80 block_level).tile 9 10).type = T_VLINE)
      ∧ ¬ (((level_refine 22 80 block_level).tile 11 10).type = T_HLINE
            ∨ ((level_refine 22 80 block_level).tile 11 10).type = T_VLINE)
      ∧ ¬ (((level_refine 22 80 block_level).tile 10 9).type = T_HLINE
            ∨ ((level_refine 22 80 block_level).tile 10 9).type = T_VLINE)
      ∧ ¬ (((level_refine 22 80 block_level).tile 10 11).type = T_HLINE
            ∨ ((level_refine 22 80 block_level).tile 10 11).type = T_VLINE) := by
  obtain ⟨_, _, hn, hs, hw, he⟩ := wall_block_refined 22 80 block_level 10 10
    block_level_wall_block (by decide) (by decide) (by decide) (by decide)
  have e1 : (10 : Int) - 1 = 9 := by decide
  have e2 : (10 : Int) + 1 = 11 := by decide
  rw [e1] at hn hw
  rw [e2] at hs he
  rw [hn, hs, hw, he]
  exact ⟨block_level_wall_block, by decide, by decide, by decide, by decide, by decide,
    by decide⟩

/-- C10, amended: for every grid that is empty except for a 3x3 block of `T_WALL` tiles
whose nine cells are interior, after `level_refine` the centre of the block is `T_WALL`
(its mask is 255) and the four tiles edge-adjacent to the centre are tees: `T_TTEE`
north of it, `T_BTEE` south, `T_LTEE` west and `T_RTEE` east. -/
theorem level_refine_wall_block (MAXROWS MAXCOLS : Nat) (l : level) (cy cx : Int)
    (hb : wall_block MAXROWS MAXCOLS l cy cx)
    (hy1 : 1 ≤ cy - 1) (hy2 : cy + 1 ≤ (MAXROWS : Int) - 2)
    (hx1 : 1 ≤ cx - 1) (hx2 : cx + 1 ≤ (MAXCOLS : Int) - 2) :
    neighbour_mask l cy cx = 255
      ∧ ((level_refine MAXROWS MAXCOLS l).tile cy cx).type = T_WALL
      ∧ ((level_refine MAXROWS MAXCOLS l).tile (cy - 1) cx).type = T_TTEE
      ∧ ((level_refine MAXROWS MAXCOLS l).tile (cy + 1) cx).type = T_BTEE
      ∧ ((level_refine MAXROWS MAXCOLS l).tile cy (cx - 1)).type = T_LTEE
      ∧ ((level_refine MAXROWS MAXCOLS l).tile cy (cx + 1)).type = T_RTEE :=
  wall_block_refined MAXROWS MAXCOLS l cy cx hb (by omega) (by omega) (by omega) (by omega)

/-- The wall block of `block_level`, centred at `(10, 10)` on the 22x80 grid. -/
theorem level_refine_wall_block_witness :
    wall_block 22 80 block_level 10 10
      ∧ neighbour_mask block_level 10 10 = 255
      ∧ ((level_refine 22 80 block_level).tile 10 10).type = T_WALL
      ∧ ((level_refine 22 80 block_level).tile (10 - 1) 10).type = T_TTEE
      ∧ ((level_refine 22 80 block_level).tile (10 + 1) 10).type = T_BTEE
      ∧ ((level_refine 22 80 block_level).tile 10 (10 - 1)).type = T_LTEE
      ∧ ((level_refine 22 80 block_level).tile 10 (10 + 1)).type = T_RTEE :=
  ⟨block_level_wall_block,
    level_refine_wall_block 22 80 block_level 10 10 block_level_wall_block (by decide)
      (by decide) (by decide) (by decide)⟩

/-- C11: `level_refine` is not idempotent.  On every grid of at least 5 rows and 6
columns there is a level of `T_WALL` and `T_EMPTY` tiles only, on which a tile left as
plain `T_WALL` by the first pass is reclassified (to `T_HLINE`) by the second, so that
applying `level_refine` twice differs from applying it once. -/
theorem level_refine_not_idempotent (MAXROWS MAXCOLS : Nat) (hR : 5 ≤ MAXROWS)
    (hC : 6 ≤ MAXCOLS) :
    ∃ l : level,
      (∀ y x : Int, (l.tile y x).type = T_WALL ∨ (l.tile y x).type = T_EMPTY)
        ∧ (∃ y x : Int, in_grid MAXROWS MAXCOLS y x
            ∧ (l.tile y x).type = T_WALL
            ∧ ((level_refine MAXROWS MAXCOLS l).tile y x).type = T_WALL
            ∧ ((level_refine MAXROWS MAXCOLS (level_refine MAXROWS MAXCOLS l)).tile y x).type
                = T_HLINE)
        ∧ level_refine MAXROWS MAXCOLS (level_refine MAXROWS MAXCOLS l)
            ≠ level_refine MAXROWS MAXCOLS l := by
  obtain ⟨h1, _, h2⟩ := wide_block_refined_twice MAXROWS MAXCOLS hR hC
  refine ⟨wide_block_level, ?_, ⟨2, 2, ?_, by decide, h1, h2⟩, ?_⟩
  · intro y x
    unfold wide_block_level
    simp only
    split_ifs
    · exact Or.inl rfl
    · exact Or.inr rfl
  · unfold in_grid
    omega
  · intro heq
    rw [heq, h1] at h2
    exact absurd h2 (by decide)

/-- The 22x80 grid. -/
theorem level_refine_not_idempotent_witness :
    ∃ l : level,
      (∀ y x : Int, (l.tile y x).type = T_WALL ∨ (l.tile y x).type = T_EMPTY)
        ∧ (∃ y x : Int, in_grid 22 80 y x
            ∧ (l.tile y x).type = T_WALL
            ∧ ((level_refine 22 80 l).tile y x).type = T_WALL
            ∧ ((level_refine 22 80 (level_refine 22 80 l)).tile y x).type = T_HLINE)
        ∧ level_refine 22 80 (level_refine 22 80 l) ≠ level_refine 22 80 l :=
  level_refine_not_idempotent 22 80 (by decide) (by decide)

/-- C12: move round trip.  For a creature `c` standing inside the grid on a tile of type
`T_EMPTY`, `T_UPSTAIR` or `T_DOWNSTAIR` that holds it: if `creature_move` by `(dr, dc)`
returns 0, then the following `creature_move` by `(-dr, -dc)` returns 0 as well and gives
back the creature store (the coordinates of `c` included) and the level (every tile type
and occupant) exactly as they were. -/
theorem creature_move_round_trip (MAXROWS MAXCOLS : Nat) (c : creature_ptr)
    (m : creatures) (l : level) (dr dc : Int)
    (hin : in_grid MAXROWS MAXCOLS (m c).y (m c).x)
    (hty : (l.tile (m c).y (m c).x).type = T_EMPTY ∨ (l.tile (m c).y (m c).x).type = T_UPSTAIR
      ∨ (l.tile (m c).y (m c).x).type = T_DOWNSTAIR)
    (hocc : (l.tile (m c).y (m c).x).creature = some c)
    (hret : (creature_move MAXROWS MAXCOLS c m l dr dc).1 = 0) :
    (creature_move MAXROWS MAXCOLS c (creature_move MAXROWS MAXCOLS c m l dr dc).2.1
        (creature_move MAXROWS MAXCOLS c m l dr dc).2.2 (-dr) (-dc)).1 = 0
      ∧ (creature_move MAXROWS MAXCOLS c (creature_move MAXROWS MAXCOLS c m l dr dc).2.1
        (creature_move MAXROWS MAXCOLS c m l dr dc).2.2 (-dr) (-dc)).2.1 = m
      ∧ (creature_move MAXROWS MAXCOLS c (creature_move MAXROWS MAXCOLS c m l dr dc).2.1
        (creature_move MAXROWS MAXCOLS c m l dr dc).2.2 (-dr) (-dc)).2.2 = l :=
  creature_move_there_and_back MAXROWS MAXCOLS c m l dr dc hin hty hocc hret

/-- The creature at address 1, placed at `(5, 5)` on the empty 22x80 level: after
`creature_move_right` then `creature_move_left` it is at `(5, 5)` again and tile `(5, 5)`
holds it. -/
theorem creature_move_round_trip_witness :
    (creature_move_right 22 80 1 sample_creatures sample_level).1 = 0
      ∧ (creature_move_left 22 80 1 (creature_move_right 22 80 1 sample_creatures sample_level).2.1
          (creature_move_right 22 80 1 sample_creatures sample_level).2.2).1 = 0
      ∧ ((creature_move_left 22 80 1
          (creature_move_right 22 80 1 sample_creatures sample_level).2.1
          (creature_move_right 22 80 1 sample_creatures sample_level).2.2).2.1 1).y = 5
      ∧ ((creature_move_left 22 80 1
          (creature_move_right 22 80 1 sample_creatures sample_level).2.1
          (creature_move_right 22 80 1 sample_creatures sample_level).2.2).2.1 1).x = 5
      ∧ (((creature_move_left 22 80 1
          (creature_move_right 22 80 1 sample_creatures sample_level).2.1
          (creature_move_right 22 80 1 sample_creatures sample_level).2.2).2.2).tile 5 5).creature
          = some 1 := by
  have h := creature_move_round_trip 22 80 1 sample_creatures sample_level 0 1
    (by decide) (by decide) (by decide) (by decide)
  have e0 : -(0 : Int) = 0 := by decide
  rw [e0] at h
  unfold creature_move_left creature_move_right
  refine ⟨by decide, h.1, ?_, ?_, ?_⟩
  · rw [h.2.1]; decide
  · rw [h.2.1]; decide
  · rw [h.2.2]; decide

/-- C13, as the claim states it, fails for the creature at address 1 standing on the
down-stair at `(5, 5)` of `on_downstair_level`, with the empty 22x80 level, which has no
up-stair, as target: `creature_climb_downstair` does not return -1, and the level it
climbs from is not what it was. -/
theorem creature_climb_downstair_no_upstair_not_rejected :
    in_grid 22 80 (sample_creatures 1).y (sample_creatures 1).x
      ∧ (on_downstair_level.tile (sample_creatures 1).y (sample_creatures 1).x).type
          = T_DOWNSTAIR
      ∧ (∀ y x : Int, in_grid 22 80 y x
          → ((level_init 22 80 block_level).tile y x).type ≠ T_UPSTAIR)
      ∧ (creature_climb_downstair 22 80 1 sample_creatures on_downstair_level
          (level_init 22 80 block_level)).1 ≠ -1
      ∧ (creature_climb_downstair 22 80 1 sample_creatures on_downstair_level
          (level_init 22 80 block_level)).2.2.1 ≠ on_downstair_level := by
  have hno : ∀ y x : Int, in_grid 22 80 y x
      → ((level_init 22 80 block_level).tile y x).type ≠ T_UPSTAIR :=
    fun y x hg => (level_init_no_stair block_level y x hg).1
  have hres := (creature_climb_no_arrival 22 80 1 sample_creatures on_downstair_level
    (level_init 22 80 block_level)).1 (by decide) hno
  rw [hres]
  refine ⟨by decide, by decide, hno, by decide, ?_⟩
  intro heq
  have h5 := congrArg (fun l : level => (l.tile 5 5).creature) heq
  revert h5
  decide

/-- C13, amended: for a creature standing inside the grid on a `T_DOWNSTAIR` tile of `f`
and a target level `t`, a level object distinct from `f`, whose grid has no `T_UPSTAIR`
tile, `creature_climb_downstair` returns 0 (no failure is reported), leaves the creature
store and `t` unchanged, and on `f` changes nothing but the occupant of the creature's
tile, which becomes empty.  Likewise `creature_climb_upstair` from a `T_UPSTAIR` tile
when `t` has no `T_DOWNSTAIR` tile.  When `f` itself is passed as target (one level
object), both functions return 0, leave the creature store unchanged and change nothing
on that level but the occupant of the creature's tile, which becomes empty. -/
theorem creature_climb_without_arrival_stair (MAXROWS MAXCOLS : Nat) (c : creature_ptr)
    (m : creatures) (f t : level) (_hin : in_grid MAXROWS MAXCOLS (m c).y (m c).x) :
    ((f.tile (m c).y (m c).x).type = T_DOWNSTAIR
        → (∀ y x : Int, in_grid MAXROWS MAXCOLS y x → (t.tile y x).type ≠ T_UPSTAIR)
        → (creature_climb_downstair MAXROWS MAXCOLS c m f t).1 = 0
          ∧ (creature_climb_downstair MAXROWS MAXCOLS c m f t).2.1 = m
          ∧ (creature_climb_downstair MAXROWS MAXCOLS c m f t).2.2.2 = t
          ∧ (((creature_climb_downstair MAXROWS MAXCOLS c m f t).2.2.1).tile
              (m c).y (m c).x).creature = none
          ∧ (∀ y x : Int, ¬ (y = (m c).y ∧ x = (m c).x)
              → ((creature_climb_downstair MAXROWS MAXCOLS c m f t).2.2.1).tile y x
                  = f.tile y x)
          ∧ (∀ y x : Int, (((creature_climb_downstair MAXROWS MAXCOLS c m f t).2.2.1).tile
              y x).type = (f.tile y x).type)
          ∧ ((creature_climb_downstair MAXROWS MAXCOLS c m f t).2.2.1).type = f.type)
      ∧ ((f.tile (m c).y (m c).x).type = T_UPSTAIR
        → (∀ y x : Int, in_grid MAXROWS MAXCOLS y x → (t.tile y x).type ≠ T_DOWNSTAIR)
        → (creature_climb_upstair MAXROWS MAXCOLS c m f t).1 = 0
          ∧ (creature_climb_upstair MAXROWS MAXCOLS c m f t).2.1 = m
          ∧ (creature_climb_upstair MAXROWS MAXCOLS c m f t).2.2.2 = t
          ∧ (((creature_climb_upstair MAXROWS MAXCOLS c m f t).2.2.1).tile
              (m c).y (m c).x).creature = none
          ∧ (∀ y x : Int, ¬ (y = (m c).y ∧ x = (m c).x)
              → ((creature_climb_upstair MAXROWS MAXCOLS c m f t).2.2.1).tile y x
                  = f.tile y x)
          ∧ (∀ y x : Int, (((creature_climb_upstair MAXROWS MAXCOLS c m f t).2.2.1).tile
              y x).type = (f.tile y x).type)
          ∧ ((creature_climb_upstair MAXROWS MAXCOLS c m f t).2.2.1).type = f.type)
      ∧ ((f.tile (m c).y (m c).x).type = T_DOWNSTAIR
        → (∀ y x : Int, in_grid MAXROWS MAXCOLS y x → (f.tile y x).type ≠ T_UPSTAIR)
        → (creature_climb_downstair_same MAXROWS MAXCOLS c m f).1 = 0
          ∧ (creature_climb_downstair_same MAXROWS MAXCOLS c m f).2.1 = m
          ∧ (((creature_climb_downstair_same MAXROWS MAXCOLS c m f).2.2).tile
              (m c).y (m c).x).creature = none
          ∧ (∀ y x : Int, ¬ (y = (m c).y ∧ x = (m c).x)
              → ((creature_climb_downstair_same MAXROWS MAXCOLS c m f).2.2).tile y x = f.tile y x)
          ∧ (∀ y x : Int, (((creature_climb_downstair_same MAXROWS MAXCOLS c m f).2.2).tile y x).type
              = (f.tile y x).type)
          ∧ ((creature_climb_downstair_same MAXROWS MAXCOLS c m f).2.2).type = f.type)
      ∧ ((f.tile (m c).y (m c).x).type = T_UPSTAIR
        → (∀ y x : Int, in_grid MAXROWS MAXCOLS y x → (f.tile y x).type ≠ T_DOWNSTAIR)
        → (creature_climb_upstair_same MAXROWS MAXCOLS c m f).1 = 0
          ∧ (creature_climb_upstair_same MAXROWS MAXCOLS c m f).2.1 = m
          ∧ (((creature_climb_upstair_same MAXROWS MAXCOLS c m f).2.2).tile
              (m c).y (m c).x).creature = none
          ∧ (∀ y x : Int, ¬ (y = (m c).y ∧ x = (m c).x)
              → ((creature_climb_upstair_same MAXROWS MAXCOLS c m f).2.2).tile y x = f.tile y x)
          ∧ (∀ y x : Int, (((creature_climb_upstair_same MAXROWS MAXCOLS c m f).2.2).tile y x).type
              = (f.tile y x).type)
          ∧ ((creature_climb_upstair_same MAXROWS MAXCOLS c m f).2.2).type = f.type) := by
  refine ⟨?_, ?_, ?_, ?_⟩
  · intro hf hno
    rw [(creature_climb_no_arrival MAXROWS MAXCOLS c m f t).1 hf hno]
    refine ⟨rfl, rfl, rfl, ?_, ?_, ?_, rfl⟩
    · simp [set_creature_tile]
    · intro y x h
      simp [set_creature_tile, h]
    · intro y x
      simp only [set_creature_tile]
      split_ifs <;> rfl
  · intro hf hno
    rw [(creature_climb_no_arrival MAXROWS MAXCOLS c m f t).2 hf hno]
    refine ⟨rfl, rfl, rfl, ?_, ?_, ?_, rfl⟩
    · simp [set_creature_tile]
    · intro y x h
      simp [set_creature_tile, h]
    · intro y x
      simp only [set_creature_tile]
      split_ifs <;> rfl
  · intro hf hno
    rw [(creature_climb_same_no_arrival MAXROWS MAXCOLS c m f).1 hf hno]
    refine ⟨rfl, rfl, ?_, ?_, ?_, rfl⟩
    · simp [set_creature_tile]
    · intro y x h
      simp [set_creature_tile, h]
    · intro y x
      simp only [set_creature_tile]
      split_ifs <;> rfl
  · intro hf hno
    rw [(creature_climb_same_no_arrival MAXROWS MAXCOLS c m f).2 hf hno]
    refine ⟨rfl, rfl, ?_, ?_, ?_, rfl⟩
    · simp [set_creature_tile]
    · intro y x h
      simp [set_creature_tile, h]
    · intro y x
      simp only [set_creature_tile]
      split_ifs <;> rfl

/-- The creature at address 1 on its down-stair, and on its up-stair, at `(5, 5)`: with
the empty 22x80 level as target, and with the level it stands on as target. -/
theorem creature_climb_without_arrival_stair_witness :
    ((creature_climb_downstair 22 80 1 sample_creatures on_downstair_level
        (level_init 22 80 block_level)).1 = 0
      ∧ (creature_climb_downstair 22 80 1 sample_creatures on_downstair_level
        (level_init 22 80 block_level)).2.2.2 = level_init 22 80 block_level)
    ∧ ((creature_climb_upstair 22 80 1 sample_creatures on_upstair_level
        (level_init 22 80 block_level)).1 = 0
      ∧ (creature_climb_upstair 22 80 1 sample_creatures on_upstair_level
        (level_init 22 80 block_level)).2.2.2 = level_init 22 80 block_level)
    ∧ ((creature_climb_downstair_same 22 80 1 sample_creatures on_downstair_level).1 = 0
      ∧ (((creature_climb_downstair_same 22 80 1 sample_creatures on_downstair_level).2.2).tile
          (sample_creatures 1).y (sample_creatures 1).x).creature = none)
    ∧ ((creature_climb_upstair_same 22 80 1 sample_creatures on_upstair_level).1 = 0
      ∧ (((creature_climb_upstair_same 22 80 1 sample_creatures on_upstair_level).2.2).tile
          (sample_creatures 1).y (sample_creatures 1).x).creature = none) :=
  ⟨⟨((creature_climb_without_arrival_stair 22 80 1 sample_creatures on_downstair_level
        (level_init 22 80 block_level) (by decide)).1 (by decide)
        (fun y x hg => (level_init_no_stair block_level y x hg).1)).1,
      ((creature_climb_without_arrival_stair 22 80 1 sample_creatures on_downstair_level
        (level_init 22 80 block_level) (by decide)).1 (by decide)
        (fun y x hg => (level_init_no_stair block_level y x hg).1)).2.2.1⟩,
    ⟨((creature_climb_without_arrival_stair 22 80 1 sample_creatures on_upstair_level
        (level_init 22 80 block_level) (by decide)).2.1 (by decide)
        (fun y x hg => (level_init_no_stair block_level y x hg).2)).1,
      ((creature_climb_without_arrival_stair 22 80 1 sample_creatures on_upstair_level
        (level_init 22 80 block_level) (by decide)).2.1 (by decide)
        (fun y x hg => (level_init_no_stair block_level y x hg).2)).2.2.1⟩,
    ⟨((creature_climb_without_arrival_stair 22 80 1 sample_creatures on_downstair_level
        on_downstair_level (by decide)).2.2.1 (by decide)
        on_downstair_level_no_upstair).1,
      ((creature_climb_without_arrival_stair 22 80 1 sample_creatures on_downstair_level
        on_downstair_level (by decide)).2.2.1 (by decide)
        on_downstair_level_no_upstair).2.2.1⟩,
    ⟨((creature_climb_without_arrival_stair 22 80 1 sample_creatures on_upstair_level
        on_upstair_level (by decide)).2.2.2 (by decide)
        on_upstair_level_no_downstair).1,
      ((creature_climb_without_arrival_stair 22 80 1 sample_creatures on_upstair_level
        on_upstair_level (by decide)).2.2.2 (by decide)
        on_upstair_level_no_downstair).2.2.1⟩⟩

set_option maxRecDepth 100000 in
/-- C14, evaluated on the code: the up-stair at `(3, 4)` of the target level holds the
creature at address 2; `creature_place_at_stair` for the creature at address 1, and
`creature_climb_downstair` of that creature from its down-stair at `(5, 5)`, both leave
tile `(3, 4)` of the target level with the creature at address 1 as occupant. -/
theorem creature_place_at_stair_replaces_occupant :
    (occupied_stair_level.tile 3 4).creature = some 2
      ∧ ((creature_place_at_stair 22 80 1 two_creatures occupied_stair_level true).2.tile
          3 4).creature = some 1
      ∧ (on_downstair_level.tile (two_creatures 1).y (two_creatures 1).x).type = T_DOWNSTAIR
      ∧ (creature_climb_downstair 22 80 1 two_creatures on_downstair_level
          occupied_stair_level).1 = 0
      ∧ ((creature_climb_downstair 22 80 1 two_creatures on_downstair_level
          occupied_stair_level).2.2.2.tile 3 4).creature = some 1 := by
  decide

/-- C15: frame of `level_refine`.  Every border cell of the grid (row 0, row
`MAXROWS - 1`, column 0 or column `MAXCOLS - 1`) and every cell whose input type is not
`T_WALL` has the same type after `level_refine` as before; the occupant of every tile
and the origin of the level are unchanged. -/
theorem level_refine_frame (MAXROWS MAXCOLS : Nat) (l : level) :
    (∀ y x : Int, in_grid MAXROWS MAXCOLS y x
        → (y = 0 ∨ y = (MAXROWS : Int) - 1 ∨ x = 0 ∨ x = (MAXCOLS : Int) - 1)
        → ((level_refine MAXROWS MAXCOLS l).tile y x).type = (l.tile y x).type)
      ∧ (∀ y x : Int, (l.tile y x).type ≠ T_WALL
        → ((level_refine MAXROWS MAXCOLS l).tile y x).type = (l.tile y x).type)
      ∧ (∀ y x : Int,
        ((level_refine MAXROWS MAXCOLS l).tile y x).creature = (l.tile y x).creature)
      ∧ (level_refine MAXROWS MAXCOLS l).type = l.type := by
  refine ⟨?_, ?_, ?_, level_refine_type MAXROWS MAXCOLS l⟩
  · intro y x _ hb
    rw [level_refine_tile, if_neg]
    unfold interior
    omega
  · intro y x hw
    rw [level_refine_tile]
    split_ifs
    · rw [refined_tile_not_wall l y x _ hw]
    · rfl
  · intro y x
    rw [level_refine_tile]
    split_ifs
    · exact refined_tile_creature l y x _
    · rfl

/-- C16: occupancy invariant under movement.  In a consistent state (every tile of the
grid that has an occupant is located at the coordinates stored in that occupant), for
every creature `c` stored inside the grid and every delta, the state after
`creature_move`, whether it returned 0 or -1, is consistent again. -/
theorem creature_move_preserves_consistent (MAXROWS MAXCOLS : Nat) (c : creature_ptr)
    (m : creatures) (l : level) (row col : Int)
    (_hin : in_grid MAXROWS MAXCOLS (m c).y (m c).x)
    (hc : consistent MAXROWS MAXCOLS m l) :
    consistent MAXROWS MAXCOLS (creature_move MAXROWS MAXCOLS c m l row col).2.1
      (creature_move MAXROWS MAXCOLS c m l row col).2.2 :=
  creature_move_consistent MAXROWS MAXCOLS c m l row col hc

/-- The creature at address 1 on the empty 22x80 level, moving one column to the right
(accepted) and six columns to the left (rejected). -/
theorem creature_move_preserves_consistent_witness :
    consistent 22 80 sample_creatures sample_level
      ∧ (creature_move 22 80 1 sample_creatures sample_level 0 1).1 = 0
      ∧ consistent 22 80 (creature_move 22 80 1 sample_creatures sample_level 0 1).2.1
          (creature_move 22 80 1 sample_creatures sample_level 0 1).2.2
      ∧ (creature_move 22 80 1 sample_creatures sample_level 0 (-6)).1 = -1
      ∧ consistent 22 80 (creature_move 22 80 1 sample_creatures sample_level 0 (-6)).2.1
          (creature_move 22 80 1 sample_creatures sample_level 0 (-6)).2.2 :=
  ⟨sample_consistent, by decide,
    creature_move_preserves_consistent 22 80 1 sample_creatures sample_level 0 1 (by decide)
      sample_consistent,
    by decide,
    creature_move_preserves_consistent 22 80 1 sample_creatures sample_level 0 (-6)
      (by decide) sample_consistent⟩

set_option maxRecDepth 100000 in
/-- C17: diagonal neighbours only matter at four-way junctions.  Two 8-bit masks with
the same north, west, east and south bits (`m &&& 90`), not all four of them set, get
the same classification, in the chain of `level_refine` and in the table.  When all four
are set the result is `T_WALL` for 255, `T_CROSS` for 90, 91 and 94, and `T_BTEE`
otherwise. -/
theorem classify_diagonals_irrelevant (m1 m2 : Nat) (h1 : m1 < 256) (h2 : m2 < 256)
    (h : (m1 &&& 90) = (m2 &&& 90)) (hne : (m1 &&& 90) ≠ 90) :
    classify m1 = classify m2 ∧ refine_assign m1 = refine_assign m2
      ∧ (∀ m : Nat, m < 256 → (m &&& 90) = 90 →
          classify m
            = if m = 255 then T_WALL else if m = 90 ∨ m = 91 ∨ m = 94 then T_CROSS
              else T_BTEE) := by
  have key : ∀ m : Nat, m < 256 → (m &&& 90) ≠ 90 →
      classify m = classify (m &&& 90) ∧ refine_assign m = refine_assign (m &&& 90) := by
    decide
  have k1 := key m1 h1 hne
  have k2 := key m2 h2 (h ▸ hne)
  refine ⟨?_, ?_, by decide⟩
  · rw [k1.1, k2.1, h]
  · rw [k1.2, k2.2, h]

/-- The masks 31 (west, east and the three southern neighbours) and 26 (west, east,
south) are both `T_TTEE`. -/
theorem classify_diagonals_irrelevant_witness :
    ((31 : Nat) &&& 90) = (26 &&& 90) ∧ ((31 : Nat) &&& 90) ≠ 90
      ∧ classify 31 = classify 26 ∧ refine_assign 31 = refine_assign 26 :=
  ⟨by decide, by decide,
    (classify_diagonals_irrelevant 31 26 (by decide) (by decide) (by decide) (by decide)).1,
    (classify_diagonals_irrelevant 31 26 (by decide) (by decide) (by decide) (by decide)).2.1⟩

/-- C18: the four exact-mask tests of the corner rules are dead.  The chain without the
disjuncts `nwall == 127`, `nwall == 223`, `nwall == 251`, `nwall == 254` assigns the same
type as the chain of `level_refine` for every mask, because each of these four masks
contains the bits of 88: it is taken by the earlier rule `(nwall & 88) == 88` and is
`T_BTEE`. -/
theorem exact_corner_tests_dead :
    (∀ m : Nat, refine_assign_without_exact m = refine_assign m)
      ∧ ((127 : Nat) &&& 88) = 88 ∧ ((223 : Nat) &&& 88) = 88
      ∧ ((251 : Nat) &&& 88) = 88 ∧ ((254 : Nat) &&& 88) = 88
      ∧ refine_assign 127 = some T_BTEE ∧ refine_assign 223 = some T_BTEE
      ∧ refine_assign 251 = some T_BTEE ∧ refine_assign 254 = some T_BTEE := by
  refine ⟨?_, by decide, by decide, by decide, by decide, by decide, by decide, by decide,
    by decide⟩
  intro m
  by_cases h88 : (m &&& 88) = 88
  · simp only [refine_assign, refine_assign_without_exact, h88, if_true]
  · have e127 : ¬ m = 127 := by
      rintro rfl
      exact h88 (by decide)
    have e223 : ¬ m = 223 := by
      rintro rfl
      exact h88 (by decide)
    have e251 : ¬ m = 251 := by
      rintro rfl
      exact h88 (by decide)
    have e254 : ¬ m = 254 := by
      rintro rfl
      exact h88 (by decide)
    simp only [refine_assign, refine_assign_without_exact, e127, e223, e251, e254, false_or]

set_option maxRecDepth 100000 in
/-- C19: an interior cell whose input type is `T_WALL` still has type `T_WALL` after
`level_refine` if and only if its neighbour mask is 255 or has none of the north, west,
east and south bits (`mask &&& 90 = 0`); in every other case it has one of the eleven
directional glyphs. -/
theorem level_refine_keeps_wall_iff (MAXROWS MAXCOLS : Nat) (l : level) (y x : Int)
    (hy1 : 1 ≤ y) (hy2 : y ≤ (MAXROWS : Int) - 2) (hx1 : 1 ≤ x) (hx2 : x ≤ (MAXCOLS : Int) - 2)
    (hw : (l.tile y x).type = T_WALL) :
    (((level_refine MAXROWS MAXCOLS l).tile y x).type = T_WALL
        ↔ (neighbour_mask l y x = 255 ∨ (neighbour_mask l y x &&& 90) = 0))
      ∧ (¬ (neighbour_mask l y x = 255 ∨ (neighbour_mask l y x &&& 90) = 0)
        → is_glyph ((level_refine MAXROWS MAXCOLS l).tile y x).type) := by
  have key : ∀ m : Nat, m < 256 →
      ((classify m = T_WALL ↔ (m = 255 ∨ (m &&& 90) = 0))
        ∧ (¬ (m = 255 ∨ (m &&& 90) = 0) → is_glyph (classify m))) := by
    decide
  rw [level_refine_wall_cell MAXROWS MAXCOLS l y x ⟨hy1, hy2, hx1, hx2⟩ hw]
  exact key _ (neighbour_mask_lt l y x)

/-- The centre of the wall block of `block_level` (mask 255) on the 22x80 grid. -/
theorem level_refine_keeps_wall_iff_witness :
    (block_level.tile 10 10).type = T_WALL
      ∧ (((level_refine 22 80 block_level).tile 10 10).type = T_WALL
        ↔ (neighbour_mask block_level 10 10 = 255
          ∨ (neighbour_mask block_level 10 10 &&& 90) = 0)) :=
  ⟨by decide,
    (level_refine_keeps_wall_iff 22 80 block_level 10 10 (by decide) (by decide) (by decide)
      (by decide) (by decide)).1⟩

/-- C20: `level_refine` never changes walkability.  For every level and every
coordinate `tile_is_wall` and `tile_is_empty` give the same answer on the tile after
`level_refine` as on the tile before it, and for every creature and delta
`creature_move` returns the same value on the refined and on the unrefined level. -/
theorem level_refine_preserves_walkability (MAXROWS MAXCOLS : Nat) (l : level) :
    (∀ y x : Int,
        tile_is_wall ((level_refine MAXROWS MAXCOLS l).tile y x) = tile_is_wall (l.tile y x)
          ∧ tile_is_empty ((level_refine MAXROWS MAXCOLS l).tile y x)
              = tile_is_empty (l.tile y x))
      ∧ (∀ (c : creature_ptr) (m : creatures) (row col : Int),
          (creature_move MAXROWS MAXCOLS c m (level_refine MAXROWS MAXCOLS l) row col).1
            = (creature_move MAXROWS MAXCOLS c m l row col).1) := by
  have hcell : ∀ y x : Int,
      tile_is_wall ((level_refine MAXROWS MAXCOLS l).tile y x) = tile_is_wall (l.tile y x)
        ∧ tile_is_empty ((level_refine MAXROWS MAXCOLS l).tile y x)
            = tile_is_empty (l.tile y x) := by
    intro y x
    rw [level_refine_tile]
    split_ifs
    · exact refined_tile_walkability l y x
    · exact ⟨rfl, rfl⟩
  refine ⟨hcell, ?_⟩
  intro c m row col
  exact creature_move_ret_congr MAXROWS MAXCOLS c m _ _ row col (hcell _ _).1 (hcell _ _).2

end OpenRoguelike
